import Mathlib

/-!
Verification development for the CityBikes tutorial program (`src/main.py`).

The program reads a JSON document text, then runs three deserialization
variants in sequence at module toplevel (lines 362-364):
  * `method00` — marshmallow schemas instantiated with
    `only=['network.stations.name', 'network.stations.free_bikes']`;
    on validation errors it raises, otherwise it prints one line per station.
  * `method01` — the full schemas plus `@post_load` constructors building
    the classes `Extra`, `Location`, `Station`, `Network`, `CityBikesAPI`;
    it prints debug dumps on success.
  * `method02` — `json.loads` with an `object_hook` turning every JSON
    object into a `SimpleNamespace`; prints one line per station.
`method03` is defined but never called.

The embedding models JSON values (numbers as integers: no claim depends on
fractional values), a fuel-based JSON text parser standing for Python's
`json.loads` (which is library code outside `src/`; modelled from the spec's
"generic JSON parser" with the integer-number restriction), the marshmallow
2.x loading semantics of the exact schemas declared in the source (collected
validation errors, required-field checks, nested/list error paths, post_load
constructor calls that raise `TypeError` when a constructor argument is
absent), and the printing behavior of each method.
-/

/-- A decoded JSON value. Numbers are modelled as integers; every document
exercised by the claims uses only integral numbers. Objects are association
lists with unique keys (the parser resolves duplicates last-wins, as Python
`dict` does). -/
inductive Json where
  | null : Json
  | jbool : Bool → Json
  | num : Int → Json
  | str : String → Json
  | arr : List Json → Json
  | obj : List (String × Json) → Json

/-- Key lookup in a JSON object's association list (first match; the parser
keeps keys unique, mirroring Python `dict`). -/
def jget (kvs : List (String × Json)) (k : String) : Option Json :=
  match kvs with
  | [] => none
  | (k2, v) :: rest => if k2 = k then some v else jget rest k

/-- One step of a validation-error field path: a field name or a list index,
as in `network.stations[0].name`. -/
inductive PathStep where
  | field : String → PathStep
  | index : Nat → PathStep
deriving DecidableEq, Repr

abbrev FieldPath := List PathStep

def PathStep.renderTail : PathStep → String
  | .field f => "." ++ f
  | .index i => "[" ++ toString i ++ "]"

/-- Renders a path the way the spec writes field paths:
`network.stations[0].name`. -/
def renderPath : FieldPath → String
  | [] => ""
  | PathStep.field f :: rest => f ++ String.join (rest.map PathStep.renderTail)
  | PathStep.index i :: rest =>
      "[" ++ toString i ++ "]" ++ String.join (rest.map PathStep.renderTail)

/-- The marshmallow 2.x validation messages that the schemas of `main.py`
can produce. -/
inductive ValMsg where
  | missingRequired : ValMsg
  | invalidInteger : ValMsg
  | invalidString : ValMsg
  | invalidNumber : ValMsg
  | invalidList : ValMsg
  | invalidInput : ValMsg
deriving DecidableEq, Repr

/-- The exact marshmallow 2.x message text for each error kind. -/
def ValMsg.render : ValMsg → String
  | .missingRequired => "Missing data for required field."
  | .invalidInteger => "Not a valid integer."
  | .invalidString => "Not a valid string."
  | .invalidNumber => "Not a valid number."
  | .invalidList => "Not a valid list."
  | .invalidInput => "Invalid input type."

/-- Collected validation errors: marshmallow's nested error dictionary,
flattened to (path, message) pairs. -/
abbrev Errors := List (FieldPath × ValMsg)

/-- Prefix every collected error path with an outer step (nesting a schema's
errors under the parent field, or a list element's under its index). -/
def prefErrors (s : PathStep) (es : Errors) : Errors :=
  es.map (fun e => (s :: e.1, e.2))

/-- A Python exception terminating a run, as raised by the program:
`decodeError` is `json.JSONDecodeError` from `json.loads` on malformed text
(the spec's `SyntaxError` kind); `exception` is the `raise Exception(str(result.errors))`
on a non-empty marshmallow error dictionary; `typeError` is a `TypeError`
(e.g. a `@post_load` constructor called with missing arguments);
`attributeError` / `keyError` are attribute and key lookup failures. -/
inductive PyErr where
  | decodeError : String → PyErr
  | exception : Errors → PyErr
  | typeError : String → PyErr
  | attributeError : String → PyErr
  | keyError : String → PyErr
deriving DecidableEq, Repr

/-! ## JSON text parsing

Modelled from the spec: the "generic JSON parser" (`json.loads`, §4.1's
"already decoded from text by a generic JSON parser"), restricted to
integral number literals (no claim involves fractional values). -/

def skipWs : List Char → List Char
  | [] => []
  | c :: rest =>
      if c == ' ' || c == '\n' || c == '\t' || c == '\r' then skipWs rest
      else c :: rest

def hexVal (c : Char) : Option Nat :=
  if c.isDigit then some (c.toNat - 48)
  else if 'a' ≤ c && c ≤ 'f' then some (c.toNat - 87)
  else if 'A' ≤ c && c ≤ 'F' then some (c.toNat - 55)
  else none

def parseStringBody : List Char → String → Except String (String × List Char)
  | [], _ => .error "unterminated string"
  | '"' :: rest, acc => .ok (acc, rest)
  | '\\' :: 'u' :: h1 :: h2 :: h3 :: h4 :: rest, acc =>
      match hexVal h1, hexVal h2, hexVal h3, hexVal h4 with
      | some a, some b, some c, some d =>
          parseStringBody rest (acc.push (Char.ofNat (((a * 16 + b) * 16 + c) * 16 + d)))
      | _, _, _, _ => .error "invalid unicode escape"
  | '\\' :: '"' :: rest, acc => parseStringBody rest (acc.push '"')
  | '\\' :: '\\' :: rest, acc => parseStringBody rest (acc.push '\\')
  | '\\' :: '/' :: rest, acc => parseStringBody rest (acc.push '/')
  | '\\' :: 'n' :: rest, acc => parseStringBody rest (acc.push '\n')
  | '\\' :: 't' :: rest, acc => parseStringBody rest (acc.push '\t')
  | '\\' :: 'r' :: rest, acc => parseStringBody rest (acc.push '\r')
  | '\\' :: 'b' :: rest, acc => parseStringBody rest (acc.push (Char.ofNat 8))
  | '\\' :: 'f' :: rest, acc => parseStringBody rest (acc.push (Char.ofNat 12))
  | '\\' :: _, _ => .error "invalid escape"
  | c :: rest, acc => parseStringBody rest (acc.push c)

def parseDigits : List Char → Nat → Nat × List Char
  | [], acc => (acc, [])
  | c :: rest, acc =>
      if c.isDigit then parseDigits rest (acc * 10 + (c.toNat - 48))
      else (acc, c :: rest)

def parseNumber (cs : List Char) : Except String (Int × List Char) :=
  let (neg, cs1) :=
    match cs with
    | '-' :: rest => (true, rest)
    | _ => (false, cs)
  match cs1 with
  | [] => .error "invalid number"
  | c :: _ =>
      if c.isDigit then
        let (n, rest) := parseDigits cs1 0
        match rest with
        | '.' :: _ => .error "fractional numbers outside model"
        | 'e' :: _ => .error "exponents outside model"
        | 'E' :: _ => .error "exponents outside model"
        | _ => .ok (if neg then -(n : Int) else (n : Int), rest)
      else .error "invalid number"

/-- Insert a key into an object under construction, overwriting an earlier
occurrence in place (Python `dict` semantics for duplicate keys). -/
def objInsert (kvs : List (String × Json)) (k : String) (v : Json) :
    List (String × Json) :=
  match kvs with
  | [] => [(k, v)]
  | (k2, v2) :: rest =>
      if k2 = k then (k2, v) :: rest else (k2, v2) :: objInsert rest k v

mutual

def parseVal : Nat → List Char → Except String (Json × List Char)
  | 0, _ => .error "out of fuel"
  | fuel + 1, cs =>
      match skipWs cs with
      | [] => .error "unexpected end of input"
      | 'n' :: 'u' :: 'l' :: 'l' :: rest => .ok (.null, rest)
      | 't' :: 'r' :: 'u' :: 'e' :: rest => .ok (.jbool true, rest)
      | 'f' :: 'a' :: 'l' :: 's' :: 'e' :: rest => .ok (.jbool false, rest)
      | '"' :: rest =>
          match parseStringBody rest "" with
          | .error e => .error e
          | .ok (s, r) => .ok (.str s, r)
      | '[' :: rest =>
          match skipWs rest with
          | ']' :: r2 => .ok (.arr [], r2)
          | _ => parseElems fuel rest []
      | '{' :: rest =>
          match skipWs rest with
          | '}' :: r2 => .ok (.obj [], r2)
          | _ => parseMembers fuel rest []
      | c :: rest =>
          if c.isDigit || c == '-' then
            match parseNumber (c :: rest) with
            | .error e => .error e
            | .ok (n, r) => .ok (.num n, r)
          else .error "unexpected character"

def parseElems : Nat → List Char → List Json → Except String (Json × List Char)
  | 0, _, _ => .error "out of fuel"
  | fuel + 1, cs, acc =>
      match parseVal fuel cs with
      | .error e => .error e
      | .ok (v, r) =>
          match skipWs r with
          | ',' :: r2 => parseElems fuel r2 (acc ++ [v])
          | ']' :: r2 => .ok (.arr (acc ++ [v]), r2)
          | _ => .error "expected comma or closing bracket"

def parseMembers : Nat → List Char → List (String × Json) →
    Except String (Json × List Char)
  | 0, _, _ => .error "out of fuel"
  | fuel + 1, cs, acc =>
      match skipWs cs with
      | '"' :: r =>
          match parseStringBody r "" with
          | .error e => .error e
          | .ok (k, r2) =>
              match skipWs r2 with
              | ':' :: r3 =>
                  match parseVal fuel r3 with
                  | .error e => .error e
                  | .ok (v, r4) =>
                      match skipWs r4 with
                      | ',' :: r5 => parseMembers fuel r5 (objInsert acc k v)
                      | '}' :: r5 => .ok (.obj (objInsert acc k v), r5)
                      | _ => .error "expected comma or closing brace"
              | _ => .error "expected colon"
      | _ => .error "expected property name"

end

/-- Model of `json.loads` on document text: parse one value, then require only
whitespace to remain. Fuel is bounded by the text length (every unit of fuel
spent consumes at least one character). -/
def jsonParse (s : String) : Except String Json :=
  match parseVal (s.length + 8) s.data with
  | .error e => .error e
  | .ok (j, rest) =>
      match skipWs rest with
      | [] => .ok j
      | _ => .error "extra data"

/-! ## Shared marshmallow field deserializers

Each helper mirrors one marshmallow 2.x field declaration: a required field
that is absent yields `Missing data for required field.`; an absent optional
field contributes nothing (no entry in the loaded data); a present field is
deserialized by the field type, which for `Integer`/`Float` coerces through
Python `int(value)` / `float(value)` (accepting booleans and numeric
strings) and fails with the field's `invalid` message when the coercion
raises. -/

/-- Python whitespace as stripped by `int()`/`float()` on strings. -/
def isPyWs (c : Char) : Bool :=
  c == ' ' || c == '\t' || c == '\n' || c == '\r' ||
  c == Char.ofNat 11 || c == Char.ofNat 12

/-- Strip leading and trailing Python whitespace from a string's characters. -/
def strTrim (s : String) : List Char :=
  ((s.data.dropWhile isPyWs).reverse.dropWhile isPyWs).reverse

def digitsValAux : List Char → Nat → Option Nat
  | [], acc => some acc
  | c :: rest, acc =>
      if c.isDigit then digitsValAux rest (acc * 10 + (c.toNat - 48))
      else none

/-- An optionally signed nonempty run of decimal digits, as accepted by
Python `int(...)` on a stripped string. (Numeric-literal underscores, a
Python 3.6 nicety, are outside the model.) -/
def intNumeral? : List Char → Option Int
  | [] => none
  | '+' :: rest =>
      match rest with
      | [] => none
      | _ => (digitsValAux rest 0).map (fun n => (n : Int))
  | '-' :: rest =>
      match rest with
      | [] => none
      | _ => (digitsValAux rest 0).map (fun n => -(n : Int))
  | cs => (digitsValAux cs 0).map (fun n => (n : Int))

def zerosOnly : List Char → Bool
  | [] => true
  | c :: rest => c == '0' && zerosOnly rest

/-- Digits optionally followed by a dot and zeros (`3`, `3.`, `3.00`):
a Python float literal with integral value. -/
def floatBody? (cs : List Char) : Option Nat :=
  match cs.span Char.isDigit with
  | ([], _) => none
  | (ds, []) => digitsValAux ds 0
  | (ds, '.' :: frac) => if zerosOnly frac then digitsValAux ds 0 else none
  | (_, _) => none

/-- An optionally signed integral Python float literal. -/
def floatNumeral? : List Char → Option Int
  | [] => none
  | '+' :: rest => (floatBody? rest).map (fun n => (n : Int))
  | '-' :: rest => (floatBody? rest).map (fun n => -(n : Int))
  | cs => (floatBody? cs).map (fun n => (n : Int))

/-- Python `int(value)` as `fields.Integer` coerces in marshmallow 2.x:
integers pass through, booleans coerce (`int(True) = 1`), and strings are
parsed as optionally signed, whitespace-stripped integer numerals;
everything else raises `TypeError`/`ValueError` and the field fails. -/
def pyInt? (j : Json) : Option Int :=
  match j with
  | Json.num n => some n
  | Json.jbool b => some (if b then 1 else 0)
  | Json.str s => intNumeral? (strTrim s)
  | _ => none

/-- Python `float(value)` as `fields.Float` coerces in marshmallow 2.x,
restricted to the model's integral value domain: integers and booleans
coerce, and a string coerces when it is an integral float literal.
Strings denoting non-integral floats (nonzero fractions, exponents,
`inf`/`nan`) are outside the model, like fractional JSON number literals. -/
def pyFloat? (j : Json) : Option Int :=
  match j with
  | Json.num n => some n
  | Json.jbool b => some (if b then 1 else 0)
  | Json.str s => floatNumeral? (strTrim s)
  | _ => none

/-- Field `fields.Integer(required=True)`. -/
def intFieldReq (kvs : List (String × Json)) (k : String) : Except Errors Int :=
  match jget kvs k with
  | none => .error [([PathStep.field k], ValMsg.missingRequired)]
  | some v =>
      match pyInt? v with
      | some n => .ok n
      | none => .error [([PathStep.field k], ValMsg.invalidInteger)]

/-- Field `fields.String(required=True)`. -/
def strFieldReq (kvs : List (String × Json)) (k : String) : Except Errors String :=
  match jget kvs k with
  | none => .error [([PathStep.field k], ValMsg.missingRequired)]
  | some (Json.str s) => .ok s
  | some _ => .error [([PathStep.field k], ValMsg.invalidString)]

/-- Field `fields.Integer()` (optional): absent → no data entry, present →
`int(value)` coercion, failing with a validation error when it raises. -/
def intFieldOpt (kvs : List (String × Json)) (k : String) :
    Option Int × Errors :=
  match jget kvs k with
  | none => (none, [])
  | some v =>
      match pyInt? v with
      | some n => (some n, [])
      | none => (none, [([PathStep.field k], ValMsg.invalidInteger)])

/-- Field `fields.String()` (optional). -/
def strFieldOpt (kvs : List (String × Json)) (k : String) :
    Option String × Errors :=
  match jget kvs k with
  | none => (none, [])
  | some (Json.str s) => (some s, [])
  | some _ => (none, [([PathStep.field k], ValMsg.invalidString)])

/-- Field `fields.Float()` (optional): absent → no data entry, present →
`float(value)` coercion, failing with a validation error when it raises. -/
def floatFieldOpt (kvs : List (String × Json)) (k : String) :
    Option Int × Errors :=
  match jget kvs k with
  | none => (none, [])
  | some v =>
      match pyFloat? v with
      | some n => (some n, [])
      | none => (none, [([PathStep.field k], ValMsg.invalidNumber)])

/-- Field `fields.List(fields.String())` (optional): element-wise string check with
indexed error paths. -/
def strListElems (xs : List Json) (idx : Nat) : List String × Errors :=
  match xs with
  | [] => ([], [])
  | Json.str s :: rest =>
      let (vs, es) := strListElems rest (idx + 1)
      (s :: vs, es)
  | _ :: rest =>
      let (vs, es) := strListElems rest (idx + 1)
      (vs, ([PathStep.index idx], ValMsg.invalidString) :: es)

def strListFieldOpt (kvs : List (String × Json)) (k : String) :
    Option (List String) × Errors :=
  match jget kvs k with
  | none => (none, [])
  | some (Json.arr xs) =>
      let (vs, es) := strListElems xs 0
      match es with
      | [] => (some vs, [])
      | _ => (none, prefErrors (PathStep.field k) es)
  | some _ => (none, [([PathStep.field k], ValMsg.invalidList)])

/-! ## method00 — marshmallow schemas with
`only=['network.stations.name', 'network.stations.free_bikes']`

In marshmallow 2.x the dotted `only` propagates through a declared
`fields.Nested` field — `CityBikesAPISchema` is restricted to `network` and
the nested `NetworkSchema` to `stations`, dropping the `required=True`
`location` — but it stops at `fields.List(fields.Nested(...))`: the nested
option is merely set on the List field, which never reads it (that
propagation arrived in marshmallow 3). So the station elements are
validated by the full `StationSchema`: all eight declared fields, with
`free_bikes` and `name` required.
On a non-empty error dictionary the method raises
(`raise Exception(str(result.errors))`, line 88); otherwise it prints
`station['name'] + ' | Free Bikes: ' + str(station['free_bikes'])`
for each loaded station dict in order (lines 93-94). -/

namespace M00

/-- The observable part of one loaded station dict: the `name` and
`free_bikes` entries. The real `result.data` dict also carries the optional
fields present in the document, but the program never reads them — the
print loop (lines 93-94) uses only these two keys, and on a non-empty error
dictionary `result.data` is discarded by the raise at line 88 — so the
model records this projection (all eight fields are still validated, see
`m00LoadStation`). -/
structure Station where
  name : String
  free_bikes : Int
deriving DecidableEq, Repr

/-- The loaded data for `network` under `only`: just the (optional)
`stations` field; `stations` absent from the document means no
`'stations'` key in the result dict. -/
structure Network where
  stations : Option (List Station)
deriving DecidableEq, Repr

/-- The loaded top-level data: the required `network` field. -/
structure Root where
  network : Network
deriving DecidableEq, Repr

end M00

/-- Validation of the nested `ExtraSchema` (line 43-44) for method00: an
optional `slots = fields.Integer()`; no post_load exists in method00, so an
extra object can only contribute validation errors. -/
def m00CheckExtra (j : Json) : Errors :=
  match j with
  | Json.obj kvs => (intFieldOpt kvs "slots").2
  | _ => [([], ValMsg.invalidInput)]

/-- Errors contributed by a station's optional `extra = fields.Nested(ExtraSchema)`
field, namespaced under `extra`. -/
def m00ExtraErrors (kvs : List (String × Json)) : Errors :=
  match jget kvs "extra" with
  | none => []
  | some v => prefErrors (PathStep.field "extra") (m00CheckExtra v)

/-- Load one element of `network.stations` under the full `StationSchema`
(lines 52-63): all eight declared fields are validated (`only` does not
reach through the List field), `free_bikes` and `name` required. Error
paths are relative to the station object. The loaded values of the six
optional fields are checked and then dropped from the record: the program
never reads them (see `M00.Station`). The real error container is a dict
keyed by field name, so the order of the collected list is immaterial; the
model lists the required fields' errors first. -/
def m00LoadStation (j : Json) : Except Errors M00.Station :=
  match j with
  | Json.obj kvs =>
      let eOpt := (intFieldOpt kvs "empty_slots").2 ++ m00ExtraErrors kvs ++
        (strFieldOpt kvs "id").2 ++ (floatFieldOpt kvs "latitude").2 ++
        (floatFieldOpt kvs "longitude").2 ++ (strFieldOpt kvs "timestamp").2
      match intFieldReq kvs "free_bikes", strFieldReq kvs "name" with
      | .ok fb, .ok nm =>
          match eOpt with
          | [] => .ok ⟨nm, fb⟩
          | es => .error es
      | .ok _, .error en => .error (en ++ eOpt)
      | .error ef, .ok _ => .error (ef ++ eOpt)
      | .error ef, .error en => .error (ef ++ en ++ eOpt)
  | _ => .error [([], ValMsg.invalidInput)]

/-- Load the `stations` list element-wise in document order, collecting the
errors of every failing element under its index (marshmallow collects all
errors; the data is only used when the error set is empty). -/
def m00LoadStations (sts : List Json) (idx : Nat) :
    Except Errors (List M00.Station) :=
  match sts with
  | [] => .ok []
  | s :: rest =>
      match m00LoadStation s, m00LoadStations rest (idx + 1) with
      | .ok v, .ok vs => .ok (v :: vs)
      | .error es, .ok _ => .error (prefErrors (PathStep.index idx) es)
      | .ok _, .error ess => .error ess
      | .error es, .error ess =>
          .error (prefErrors (PathStep.index idx) es ++ ess)

/-- Load `network` under method00's restricted `NetworkSchema`
(only the optional `stations` list field survives `only`). -/
def m00LoadNetwork (j : Json) : Except Errors M00.Network :=
  match j with
  | Json.obj kvs =>
      match jget kvs "stations" with
      | none => .ok ⟨none⟩
      | some (Json.arr xs) =>
          match m00LoadStations xs 0 with
          | .ok l => .ok ⟨some l⟩
          | .error es => .error (prefErrors (PathStep.field "stations") es)
      | some _ => .error [([PathStep.field "stations"], ValMsg.invalidList)]
  | _ => .error [([], ValMsg.invalidInput)]

/-- method00's `schema.loads` on an already-parsed document:
`CityBikesAPISchema(only=...)` with required `network`. A non-empty
marshmallow error dictionary is modelled as the `.error` case (the program
raises at line 88 without touching `result.data` in that case). -/
def m00LoadRoot (j : Json) : Except Errors M00.Root :=
  match j with
  | Json.obj kvs =>
      match jget kvs "network" with
      | none => .error [([PathStep.field "network"], ValMsg.missingRequired)]
      | some v =>
          match m00LoadNetwork v with
          | .ok nw => .ok ⟨nw⟩
          | .error es => .error (prefErrors (PathStep.field "network") es)
  | _ => .error [([], ValMsg.invalidInput)]

/-- The line printed for one station (line 94 of the source). -/
def stationLine (name : String) (freeBikes : Int) : String :=
  name ++ " | Free Bikes: " ++ toString freeBikes

/-- Run method00 on a parsed document: printed lines plus the terminating
exception, if any. `result.data['network']['stations']` on a document whose
network lacks a `stations` key raises `KeyError`. -/
def m00Run (j : Json) : List String × Option PyErr :=
  match m00LoadRoot j with
  | .error es => ([], some (PyErr.exception es))
  | .ok root =>
      match root.network.stations with
      | none => ([], some (PyErr.keyError "stations"))
      | some sts => (sts.map (fun st => stationLine st.name st.free_bikes), none)

/-! ## method01 — full schemas with `@post_load` constructors

Each schema loads as in marshmallow 2.x (collecting validation errors), and,
when its own error set is empty, its `@post_load` hook constructs the
corresponding Python class via `Cls(**data)`. The constructors take every
schema field as a positional argument, so any field absent from the loaded
data (absent optional keys included) raises `TypeError`; that exception is
not a `ValidationError` and propagates out of `schema.loads` uncaught.
When errors were collected at a schema level, marshmallow 2.x skips that
level's post-processing, and the program raises
`Exception(str(result.errors))` at line 233. -/

namespace M01

/-- Class `Extra` (lines 114-119): `__init__(self, slots)`. -/
structure Extra where
  slots : Int
deriving DecidableEq, Repr

/-- Class `Location` (lines 121-127): `__init__(self, city, country)` — two
fields only in method01. -/
structure Location where
  city : String
  country : String
deriving DecidableEq, Repr

/-- Class `Station` (lines 129-142): eight constructor arguments. Float-typed
fields hold integral values in this model. -/
structure Station where
  empty_slots : Int
  extra : Extra
  free_bikes : Int
  id : String
  latitude : Int
  longitude : Int
  name : String
  timestamp : String
deriving DecidableEq, Repr

/-- Class `Network` (lines 144-154). -/
structure Network where
  company : List String
  href : String
  id : String
  location : Location
  name : String
  stations : List Station
deriving DecidableEq, Repr

/-- Class `CityBikesAPI` (lines 156-163). -/
structure CityBikesAPI where
  network : Network
deriving DecidableEq, Repr

end M01

/-- Required-field deserializer in (data entry, errors) form. -/
def intFieldReqD (kvs : List (String × Json)) (k : String) :
    Option Int × Errors :=
  match intFieldReq kvs k with
  | .ok n => (some n, [])
  | .error es => (none, es)

def strFieldReqD (kvs : List (String × Json)) (k : String) :
    Option String × Errors :=
  match strFieldReq kvs k with
  | .ok s => (some s, [])
  | .error es => (none, es)

/-- Schema `ExtraSchema` of method01 (lines 182-186) with its post_load:
`slots` is optional in the schema, but `Extra(**data)` requires it, so an
empty extra object crashes with `TypeError`. -/
def m01LoadExtra (j : Json) : Except PyErr (Except Errors M01.Extra) :=
  match j with
  | Json.obj kvs =>
      match intFieldOpt kvs "slots" with
      | (some n, []) => .ok (.ok ⟨n⟩)
      | (_, []) => .error (PyErr.typeError "Extra")
      | (_, es) => .ok (.error es)
  | _ => .ok (.error [([], ValMsg.invalidInput)])

/-- Schema `LocationSchema` of method01 (lines 188-193) with its post_load:
fields `city` and `country` only. -/
def m01LoadLocation (j : Json) : Except PyErr (Except Errors M01.Location) :=
  match j with
  | Json.obj kvs =>
      let (oCity, e1) := strFieldOpt kvs "city"
      let (oCountry, e2) := strFieldOpt kvs "country"
      match e1 ++ e2 with
      | [] =>
          match oCity, oCountry with
          | some c, some k => .ok (.ok ⟨c, k⟩)
          | _, _ => .error (PyErr.typeError "Location")
      | es => .ok (.error es)
  | _ => .ok (.error [([], ValMsg.invalidInput)])

/-- Deserialize the nested optional `extra` field of a station. -/
def m01ExtraField (kvs : List (String × Json)) :
    Except PyErr (Option M01.Extra × Errors) :=
  match jget kvs "extra" with
  | none => .ok (none, [])
  | some v =>
      match m01LoadExtra v with
      | .error pe => .error pe
      | .ok (.ok ex) => .ok (some ex, [])
      | .ok (.error es) => .ok (none, prefErrors (PathStep.field "extra") es)

/-- Schema `StationSchema` of method01 (lines 195-206) with its post_load
`Station(**data)`: required `free_bikes` and `name`; every absent field
(optional ones included) is absent from the loaded data, and the
constructor then raises `TypeError`. -/
def m01LoadStation (j : Json) : Except PyErr (Except Errors M01.Station) :=
  match j with
  | Json.obj kvs =>
      let (oEmpty, e1) := intFieldOpt kvs "empty_slots"
      match m01ExtraField kvs with
      | .error pe => .error pe
      | .ok (oExtra, e2) =>
          let (oFB, e3) := intFieldReqD kvs "free_bikes"
          let (oId, e4) := strFieldOpt kvs "id"
          let (oLat, e5) := floatFieldOpt kvs "latitude"
          let (oLon, e6) := floatFieldOpt kvs "longitude"
          let (oName, e7) := strFieldReqD kvs "name"
          let (oTs, e8) := strFieldOpt kvs "timestamp"
          match e1 ++ e2 ++ e3 ++ e4 ++ e5 ++ e6 ++ e7 ++ e8 with
          | [] =>
              match oEmpty, oExtra, oFB, oId, oLat, oLon, oName, oTs with
              | some a, some b, some c, some d, some e, some f, some g, some h =>
                  .ok (.ok ⟨a, b, c, d, e, f, g, h⟩)
              | _, _, _, _, _, _, _, _ => .error (PyErr.typeError "Station")
          | es => .ok (.error es)
  | _ => .ok (.error [([], ValMsg.invalidInput)])

/-- Element-wise loading of `stations` in document order; a `TypeError`
from a station's post_load propagates immediately, validation errors are
collected under the element's index. -/
def m01LoadStations (xs : List Json) (idx : Nat) :
    Except PyErr (Except Errors (List M01.Station)) :=
  match xs with
  | [] => .ok (.ok [])
  | s :: rest =>
      match m01LoadStation s with
      | .error pe => .error pe
      | .ok r1 =>
          match m01LoadStations rest (idx + 1) with
          | .error pe => .error pe
          | .ok r2 =>
              match r1, r2 with
              | .ok v, .ok vs => .ok (.ok (v :: vs))
              | .error es, .ok _ =>
                  .ok (.error (prefErrors (PathStep.index idx) es))
              | .ok _, .error ess => .ok (.error ess)
              | .error es, .error ess =>
                  .ok (.error (prefErrors (PathStep.index idx) es ++ ess))

/-- The required nested `location` field of `NetworkSchema` (line 212). -/
def m01LocationField (kvs : List (String × Json)) :
    Except PyErr (Option M01.Location × Errors) :=
  match jget kvs "location" with
  | none => .ok (none, [([PathStep.field "location"], ValMsg.missingRequired)])
  | some v =>
      match m01LoadLocation v with
      | .error pe => .error pe
      | .ok (.ok l) => .ok (some l, [])
      | .ok (.error es) => .ok (none, prefErrors (PathStep.field "location") es)

/-- The required `stations = fields.List(fields.Nested(StationSchema), required=True)`
field of `NetworkSchema` (line 214). -/
def m01StationsField (kvs : List (String × Json)) :
    Except PyErr (Option (List M01.Station) × Errors) :=
  match jget kvs "stations" with
  | none => .ok (none, [([PathStep.field "stations"], ValMsg.missingRequired)])
  | some (Json.arr xs) =>
      match m01LoadStations xs 0 with
      | .error pe => .error pe
      | .ok (.ok l) => .ok (some l, [])
      | .ok (.error es) => .ok (none, prefErrors (PathStep.field "stations") es)
  | some _ => .ok (none, [([PathStep.field "stations"], ValMsg.invalidList)])

/-- Schema `NetworkSchema` of method01 (lines 208-217) with its post_load
`Network(**data)`; fields processed in declaration order. -/
def m01LoadNetwork (j : Json) : Except PyErr (Except Errors M01.Network) :=
  match j with
  | Json.obj kvs =>
      let (oCompany, e1) := strListFieldOpt kvs "company"
      let (oHref, e2) := strFieldOpt kvs "href"
      let (oId, e3) := strFieldOpt kvs "id"
      match m01LocationField kvs with
      | .error pe => .error pe
      | .ok (oLoc, e4) =>
          let (oName, e5) := strFieldOpt kvs "name"
          match m01StationsField kvs with
          | .error pe => .error pe
          | .ok (oSts, e6) =>
              match e1 ++ e2 ++ e3 ++ e4 ++ e5 ++ e6 with
              | [] =>
                  match oCompany, oHref, oId, oLoc, oName, oSts with
                  | some a, some b, some c, some d, some e, some f =>
                      .ok (.ok ⟨a, b, c, d, e, f⟩)
                  | _, _, _, _, _, _ => .error (PyErr.typeError "Network")
              | es => .ok (.error es)
  | _ => .ok (.error [([], ValMsg.invalidInput)])

/-- method01's `CityBikesAPISchema.loads` on a parsed document
(lines 219-230): required nested `network`, post_load `CityBikesAPI(**data)`. -/
def m01LoadRoot (j : Json) : Except PyErr (Except Errors M01.CityBikesAPI) :=
  match j with
  | Json.obj kvs =>
      match jget kvs "network" with
      | none => .ok (.error [([PathStep.field "network"], ValMsg.missingRequired)])
      | some v =>
          match m01LoadNetwork v with
          | .error pe => .error pe
          | .ok (.ok nw) => .ok (.ok ⟨nw⟩)
          | .ok (.error es) =>
              .ok (.error (prefErrors (PathStep.field "network") es))
  | _ => .ok (.error [([], ValMsg.invalidInput)])

/-! ### method01 success-path printing

On success method01 prints three lines (lines 235, 239, 255): the `repr` of
the constructed object tree, the re-serialized JSON text, and the `repr` of
the `MarshalResult` returned by the second `dumps`. These renderings model
Python's `repr`/`json.dumps` output for the classes of method01; no claim
evaluates them (every claim's method01 run ends in an exception), they are
present so that the program's output is fully defined. -/

def lbr : String := "\x7b"

def rbr : String := "\x7d"

def pyQuote (s : String) : String := "'" ++ s ++ "'"

def pyDict (entries : List (String × String)) : String :=
  lbr ++ String.intercalate ", " (entries.map (fun e => pyQuote e.1 ++ ": " ++ e.2)) ++ rbr

def pyListRepr (xs : List String) : String :=
  "[" ++ String.intercalate ", " xs ++ "]"

/-- Python prints a float that came from an integral literal as `n.0`. -/
def pyFloat (n : Int) : String := toString n ++ ".0"

def pyReprExtra (e : M01.Extra) : String :=
  "<class '__main__.method01.<locals>.Extra'> " ++
    pyDict [("slots", toString e.slots)]

def pyReprLocation (l : M01.Location) : String :=
  "<class '__main__.method01.<locals>.Location'> " ++
    pyDict [("city", pyQuote l.city), ("country", pyQuote l.country)]

def pyReprStation (s : M01.Station) : String :=
  "<class '__main__.method01.<locals>.Station'> " ++
    pyDict [("empty_slots", toString s.empty_slots),
            ("extra", pyReprExtra s.extra),
            ("free_bikes", toString s.free_bikes),
            ("id", pyQuote s.id),
            ("latitude", pyFloat s.latitude),
            ("longitude", pyFloat s.longitude),
            ("name", pyQuote s.name),
            ("timestamp", pyQuote s.timestamp)]

def pyReprNetwork (n : M01.Network) : String :=
  "<class '__main__.method01.<locals>.Network'> " ++
    pyDict [("company", pyListRepr (n.company.map pyQuote)),
            ("href", pyQuote n.href),
            ("id", pyQuote n.id),
            ("location", pyReprLocation n.location),
            ("name", pyQuote n.name),
            ("stations", pyListRepr (n.stations.map pyReprStation))]

def pyReprAPI (a : M01.CityBikesAPI) : String :=
  "<class '__main__.method01.<locals>.CityBikesAPI'> " ++
    pyDict [("network", pyReprNetwork a.network)]

def jsQuote (s : String) : String := "\"" ++ s ++ "\""

def jsObj (entries : List (String × String)) : String :=
  lbr ++ String.intercalate ", " (entries.map (fun e => jsQuote e.1 ++ ": " ++ e.2)) ++ rbr

def m01DumpExtra (e : M01.Extra) : String :=
  jsObj [("slots", toString e.slots)]

def m01DumpLocation (l : M01.Location) : String :=
  jsObj [("city", jsQuote l.city), ("country", jsQuote l.country)]

def m01DumpStation (s : M01.Station) : String :=
  jsObj [("empty_slots", toString s.empty_slots),
         ("extra", m01DumpExtra s.extra),
         ("free_bikes", toString s.free_bikes),
         ("id", jsQuote s.id),
         ("latitude", pyFloat s.latitude),
         ("longitude", pyFloat s.longitude),
         ("name", jsQuote s.name),
         ("timestamp", jsQuote s.timestamp)]

def m01DumpNetwork (n : M01.Network) : String :=
  jsObj [("company", pyListRepr (n.company.map jsQuote)),
         ("href", jsQuote n.href),
         ("id", jsQuote n.id),
         ("location", m01DumpLocation n.location),
         ("name", jsQuote n.name),
         ("stations", pyListRepr (n.stations.map m01DumpStation))]

def m01Dumps (a : M01.CityBikesAPI) : String :=
  jsObj [("network", m01DumpNetwork a.network)]

def m01MarshalResultRepr (a : M01.CityBikesAPI) : String :=
  "MarshalResult(data='" ++ m01Dumps a ++ "', errors=" ++ lbr ++ rbr ++ ")"

/-- Run method01 on a parsed document: a `TypeError` from a post_load
constructor propagates out of `loads`; a non-empty error dictionary makes
the method raise `Exception(str(result.errors))` (line 233); otherwise the
three debug lines are printed. -/
def m01Run (j : Json) : List String × Option PyErr :=
  match m01LoadRoot j with
  | .error pe => ([], some pe)
  | .ok (.error es) => ([], some (PyErr.exception es))
  | .ok (.ok api) =>
      ([pyReprAPI api, m01Dumps api, m01MarshalResultRepr api], none)

/-- Model of `schema.loads(responsestr, partial=False)` at the text level: parse the
document text, then run method01's mapping. -/
def m01Loads (s : String) : Except PyErr (Except Errors M01.CityBikesAPI) :=
  match jsonParse s with
  | .error e => .error (PyErr.decodeError e)
  | .ok j => m01LoadRoot j

/-- The first `schema.loads(responsestr, partial=False)` of method01
(line 230, binding `result`). -/
def m01FirstLoad (s : String) : Except PyErr (Except Errors M01.CityBikesAPI) :=
  m01Loads s

/-- The second `schema.loads(responsestr, partial=False)` of method01
(line 246, binding `datain`). -/
def m01SecondLoad (s : String) : Except PyErr (Except Errors M01.CityBikesAPI) :=
  m01Loads s

/-! ## method02 — `json.loads` with a `SimpleNamespace` object hook

`json.loads(responsestr, object_hook=lambda arglist: SimpleNamespace(**arglist))`
turns every JSON object into a namespace carrying exactly the object's keys
as attributes — unknown keys included. The method then prints
`station.name + ' | Free Bikes: ' + str(station.free_bikes)` per element of
`boundclass.network.stations` and finally the type of the stations value.
No schema is involved: there is no required-field validation at all. -/

/-- A value as produced by method02's object hook: JSON scalars and arrays
unchanged, every JSON object replaced by a `SimpleNamespace`. -/
inductive NsVal where
  | null : NsVal
  | nbool : Bool → NsVal
  | num : Int → NsVal
  | str : String → NsVal
  | list : List NsVal → NsVal
  | ns : List (String × NsVal) → NsVal

mutual

/-- The object hook applied bottom-up, as `json.loads` does. -/
def nsOfJson : Json → NsVal
  | Json.null => NsVal.null
  | Json.jbool b => NsVal.nbool b
  | Json.num n => NsVal.num n
  | Json.str s => NsVal.str s
  | Json.arr xs => NsVal.list (nsOfJsonList xs)
  | Json.obj kvs => NsVal.ns (nsOfJsonObj kvs)

def nsOfJsonList : List Json → List NsVal
  | [] => []
  | j :: rest => nsOfJson j :: nsOfJsonList rest

def nsOfJsonObj : List (String × Json) → List (String × NsVal)
  | [] => []
  | (k, v) :: rest => (k, nsOfJson v) :: nsOfJsonObj rest

end

def nsGet (attrs : List (String × NsVal)) (k : String) : Option NsVal :=
  match attrs with
  | [] => none
  | (k2, v) :: rest => if k2 = k then some v else nsGet rest k

/-- Python attribute access `v.k`: only a namespace has data attributes;
anything else (or a missing key) raises `AttributeError`. -/
def nsAttr (v : NsVal) (k : String) : Except PyErr NsVal :=
  match v with
  | NsVal.ns attrs =>
      match nsGet attrs k with
      | some w => .ok w
      | none => .error (PyErr.attributeError k)
  | _ => .error (PyErr.attributeError k)

mutual

/-- Python `repr` of a hook-produced value. -/
def pyReprNs : NsVal → String
  | NsVal.null => "None"
  | NsVal.nbool b => if b then "True" else "False"
  | NsVal.num n => toString n
  | NsVal.str s => pyQuote s
  | NsVal.list xs => "[" ++ String.intercalate ", " (pyReprNsList xs) ++ "]"
  | NsVal.ns attrs =>
      "namespace(" ++ String.intercalate ", " (pyReprNsAttrs attrs) ++ ")"

def pyReprNsList : List NsVal → List String
  | [] => []
  | v :: rest => pyReprNs v :: pyReprNsList rest

def pyReprNsAttrs : List (String × NsVal) → List String
  | [] => []
  | (k, v) :: rest => (k ++ "=" ++ pyReprNs v) :: pyReprNsAttrs rest

end

/-- Python `str` of a hook-produced value (as `str(station.free_bikes)`
uses it). -/
def pyStrNs : NsVal → String
  | NsVal.str s => s
  | v => pyReprNs v

/-- Python `str(type(v))` for a hook-produced value. -/
def nsTypeName : NsVal → String
  | NsVal.null => "<class 'NoneType'>"
  | NsVal.nbool _ => "<class 'bool'>"
  | NsVal.num _ => "<class 'int'>"
  | NsVal.str _ => "<class 'str'>"
  | NsVal.list _ => "<class 'list'>"
  | NsVal.ns _ => "<class 'types.SimpleNamespace'>"

/-- The loop of lines 295-296: per station, `station.name` is read first;
the concatenation then requires it to be a `str`; `station.free_bikes` is
read afterwards and passed through `str()`. The first failure aborts the
loop, keeping the lines already printed. -/
def m02StationsIter : List NsVal → List String → List String × Option PyErr
  | [], acc => (acc, none)
  | st :: rest, acc =>
      match nsAttr st "name" with
      | .error pe => (acc, some pe)
      | .ok (NsVal.str nm) =>
          match nsAttr st "free_bikes" with
          | .error pe => (acc, some pe)
          | .ok fb =>
              m02StationsIter rest (acc ++ [nm ++ " | Free Bikes: " ++ pyStrNs fb])
      | .ok _ => (acc, some (PyErr.typeError "can only concatenate str"))

/-- Run method02 on a parsed document (lines 293-298). Iterating a string
yields its characters; iterating any other non-list raises `TypeError`. -/
def m02Run (j : Json) : List String × Option PyErr :=
  match nsAttr (nsOfJson j) "network" with
  | .error pe => ([], some pe)
  | .ok nw =>
      match nsAttr nw "stations" with
      | .error pe => ([], some pe)
      | .ok sts =>
          match sts with
          | NsVal.list xs =>
              match m02StationsIter xs [] with
              | (ls, some pe) => (ls, some pe)
              | (ls, none) =>
                  (ls ++ ["type(boundclass.network.stations): " ++ nsTypeName sts],
                   none)
          | NsVal.str s =>
              match m02StationsIter (s.data.map (fun c => NsVal.str (String.singleton c))) [] with
              | (ls, some pe) => (ls, some pe)
              | (ls, none) =>
                  (ls ++ ["type(boundclass.network.stations): " ++ nsTypeName sts],
                   none)
          | _ => ([], some (PyErr.typeError "not iterable"))

/-! ## method03 — hand-rolled recursive object hook (never called)

Modelled for completeness; the toplevel (lines 362-364) never invokes it,
and the program-level theorem below is parametric in this definition. -/

/-- A value as produced by method03's `object_decoder`: like the JSON tree,
but every object containing both `free_bikes` and `name` keys replaced by a
`Station` instance. -/
inductive M03Val where
  | null : M03Val
  | mbool : Bool → M03Val
  | num : Int → M03Val
  | str : String → M03Val
  | list : List M03Val → M03Val
  | dict : List (String × M03Val) → M03Val
  | station : M03Val → M03Val → M03Val

def m03Get (kvs : List (String × M03Val)) (k : String) : Option M03Val :=
  match kvs with
  | [] => none
  | (k2, v) :: rest => if k2 = k then some v else m03Get rest k

mutual

/-- Function `object_decoder` (lines 317-328) applied bottom-up by `json.loads`:
duck-typed Station detection via key presence. -/
def m03Decode : Json → M03Val
  | Json.null => M03Val.null
  | Json.jbool b => M03Val.mbool b
  | Json.num n => M03Val.num n
  | Json.str s => M03Val.str s
  | Json.arr xs => M03Val.list (m03DecodeList xs)
  | Json.obj kvs =>
      let m := m03DecodeObj kvs
      match m03Get m "free_bikes", m03Get m "name" with
      | some fb, some nm => M03Val.station nm fb
      | _, _ => M03Val.dict m

def m03DecodeList : List Json → List M03Val
  | [] => []
  | j :: rest => m03Decode j :: m03DecodeList rest

def m03DecodeObj : List (String × Json) → List (String × M03Val)
  | [] => []
  | (k, v) :: rest => (k, m03Decode v) :: m03DecodeObj rest

end

mutual

/-- Python `repr` of a method03 value (a `Station` has no `__repr__`, so a
nested one would render as a default object repr; its address is outside the
model). -/
def m03Repr : M03Val → String
  | M03Val.null => "None"
  | M03Val.mbool b => if b then "True" else "False"
  | M03Val.num n => toString n
  | M03Val.str s => pyQuote s
  | M03Val.list xs => "[" ++ String.intercalate ", " (m03ReprList xs) ++ "]"
  | M03Val.dict kvs =>
      lbr ++ String.intercalate ", " (m03ReprAttrs kvs) ++ rbr
  | M03Val.station _ _ => "<__main__.method03.<locals>.Station object>"

def m03ReprList : List M03Val → List String
  | [] => []
  | v :: rest => m03Repr v :: m03ReprList rest

def m03ReprAttrs : List (String × M03Val) → List String
  | [] => []
  | (k, v) :: rest => (pyQuote k ++ ": " ++ m03Repr v) :: m03ReprAttrs rest

end

/-- Python `str` of a method03 value: `Station.__str__` (line 312-313)
renders the station line; other values fall back to `repr`. -/
def m03Str : M03Val → String
  | M03Val.station nm fb =>
      (match nm with
       | M03Val.str s => s
       | v => m03Repr v) ++ " | Free Bikes: " ++
      (match fb with
       | M03Val.str s => s
       | v => m03Repr v)
  | M03Val.str s => s
  | v => m03Repr v

def m03TypeName : M03Val → String
  | M03Val.null => "<class 'NoneType'>"
  | M03Val.mbool _ => "<class 'bool'>"
  | M03Val.num _ => "<class 'int'>"
  | M03Val.str _ => "<class 'str'>"
  | M03Val.list _ => "<class 'list'>"
  | M03Val.dict _ => "<class 'dict'>"
  | M03Val.station _ _ => "<class '__main__.method03.<locals>.Station'>"

/-- Function `object_decode` (lines 330-346): return `obj['network']['stations']`
when present, `None` otherwise. -/
def m03ObjectDecode (j : Json) : Option M03Val :=
  match m03Decode j with
  | M03Val.dict m =>
      match m03Get m "network" with
      | some (M03Val.dict nm) => m03Get nm "stations"
      | _ => none
  | _ => none

/-- Run method03 on a parsed document (lines 349-356); iterating the `None`
returned for an unexpected shape raises `TypeError`. -/
def m03Run (j : Json) : List String × Option PyErr :=
  match m03ObjectDecode j with
  | none => ([], some (PyErr.typeError "NoneType is not iterable"))
  | some (M03Val.list xs) =>
      (xs.map m03Str ++ ["type(boundclasslist): <class 'list'>"], none)
  | some (M03Val.str s) =>
      (s.data.map String.singleton ++ ["type(boundclasslist): <class 'str'>"], none)
  | some _ => ([], some (PyErr.typeError "not iterable"))

/-! ## The program -/

/-- The four methods defined in `main.py`. -/
inductive MethodName where
  | method00 : MethodName
  | method01 : MethodName
  | method02 : MethodName
  | method03 : MethodName
deriving DecidableEq, Repr

/-- The module toplevel (lines 362-364) transcribed: the calls the program
makes, in order. -/
def toplevelCalls : List MethodName :=
  [MethodName.method00, MethodName.method01, MethodName.method02]

/-- Interpret one method name on the parsed document. The semantics of
`method03` is a parameter, so that the program-level theorems can show the
output does not depend on it. -/
def runMethod (m3 : Json → List String × Option PyErr) :
    MethodName → Json → List String × Option PyErr
  | MethodName.method00 => m00Run
  | MethodName.method01 => m01Run
  | MethodName.method02 => m02Run
  | MethodName.method03 => m3

/-- Run a sequence of method calls in order; an uncaught exception aborts
the remaining calls, keeping the lines printed so far. -/
def runMethods (m3 : Json → List String × Option PyErr) :
    List MethodName → Json → List String × Option PyErr
  | [], _ => ([], none)
  | m :: rest, j =>
      match runMethod m3 m j with
      | (ls, some pe) => (ls, some pe)
      | (ls, none) =>
          let (ls2, e2) := runMethods m3 rest j
          (ls ++ ls2, e2)

/-- The pipeline on the raw document text with the mapping stage as a
parameter: `json.loads` runs first (inside the first `schema.loads`), and
malformed text aborts everything with the JSON decode error, before any
mapping or validation can happen. -/
def pipelineWith (mapper : Json → List String × Option PyErr) (s : String) :
    List String × Option PyErr :=
  match jsonParse s with
  | .error e => ([], some (PyErr.decodeError e))
  | .ok j => mapper j

/-- Everything the program prints on the given document text, plus the
exception terminating the run, if any. -/
def programRun (s : String) : List String × Option PyErr :=
  pipelineWith (runMethods m03Run toplevelCalls) s

/-- The program applied to an already-parsed document. -/
def programMethods (j : Json) : List String × Option PyErr :=
  runMethods m03Run toplevelCalls j

/-! ## Removal of unknown keys

`stripRoot` removes from a document every object key that is not part of
the declared schema shapes (position-driven, as in spec §6); it is used to
state the unknown-field policy as: mapping a document equals mapping the
stripped document. -/

/-- Keep only the association-list entries whose key is in `keys`,
transforming each kept value with `f`. -/
def stripObjKeys (f : String → Json → Json) (keys : List String) :
    List (String × Json) → List (String × Json)
  | [] => []
  | (k, v) :: rest =>
      if k ∈ keys then (k, f k v) :: stripObjKeys f keys rest
      else stripObjKeys f keys rest

def stripExtra (j : Json) : Json :=
  match j with
  | Json.obj kvs => Json.obj (stripObjKeys (fun _ v => v) ["slots"] kvs)
  | _ => j

def stationKeys : List String :=
  ["empty_slots", "extra", "free_bikes", "id", "latitude", "longitude",
   "name", "timestamp"]

def stationFieldStrip (k : String) (v : Json) : Json :=
  if k = "extra" then stripExtra v else v

def stripStation (j : Json) : Json :=
  match j with
  | Json.obj kvs => Json.obj (stripObjKeys stationFieldStrip stationKeys kvs)
  | _ => j

def stripLocation (j : Json) : Json :=
  match j with
  | Json.obj kvs =>
      Json.obj (stripObjKeys (fun _ v => v)
        ["city", "country", "latitude", "longitude"] kvs)
  | _ => j

def networkKeys : List String :=
  ["company", "href", "id", "location", "name", "stations"]

def networkFieldStrip (k : String) (v : Json) : Json :=
  if k = "location" then stripLocation v
  else if k = "stations" then
    match v with
    | Json.arr xs => Json.arr (xs.map stripStation)
    | _ => v
  else v

def stripNetwork (j : Json) : Json :=
  match j with
  | Json.obj kvs => Json.obj (stripObjKeys networkFieldStrip networkKeys kvs)
  | _ => j

def stripRoot (j : Json) : Json :=
  match j with
  | Json.obj kvs =>
      Json.obj (stripObjKeys (fun _ v => stripNetwork v) ["network"] kvs)
  | _ => j

/-! ## Theorems -/

lemma m00LoadStation_missing (skvs : List (String × Json)) (k : String)
    (hk : k = "name" ∨ k = "free_bikes") (hmiss : jget skvs k = none) :
    ∃ es, m00LoadStation (Json.obj skvs) = Except.error es ∧
      ([PathStep.field k], ValMsg.missingRequired) ∈ es := by
  rcases hk with rfl | rfl
  · have hn : strFieldReq skvs "name" =
        Except.error [([PathStep.field "name"], ValMsg.missingRequired)] := by
      unfold strFieldReq; rw [hmiss]
    cases hfb : intFieldReq skvs "free_bikes" with
    | ok fb =>
        exact ⟨[([PathStep.field "name"], ValMsg.missingRequired)] ++
          ((intFieldOpt skvs "empty_slots").2 ++ m00ExtraErrors skvs ++
           (strFieldOpt skvs "id").2 ++ (floatFieldOpt skvs "latitude").2 ++
           (floatFieldOpt skvs "longitude").2 ++ (strFieldOpt skvs "timestamp").2),
          by simp [m00LoadStation, hfb, hn], by simp⟩
    | error e1 =>
        exact ⟨e1 ++ [([PathStep.field "name"], ValMsg.missingRequired)] ++
          ((intFieldOpt skvs "empty_slots").2 ++ m00ExtraErrors skvs ++
           (strFieldOpt skvs "id").2 ++ (floatFieldOpt skvs "latitude").2 ++
           (floatFieldOpt skvs "longitude").2 ++ (strFieldOpt skvs "timestamp").2),
          by simp [m00LoadStation, hfb, hn], by simp⟩
  · have hf : intFieldReq skvs "free_bikes" =
        Except.error [([PathStep.field "free_bikes"], ValMsg.missingRequired)] := by
      unfold intFieldReq; rw [hmiss]
    cases hnm : strFieldReq skvs "name" with
    | ok nm =>
        exact ⟨[([PathStep.field "free_bikes"], ValMsg.missingRequired)] ++
          ((intFieldOpt skvs "empty_slots").2 ++ m00ExtraErrors skvs ++
           (strFieldOpt skvs "id").2 ++ (floatFieldOpt skvs "latitude").2 ++
           (floatFieldOpt skvs "longitude").2 ++ (strFieldOpt skvs "timestamp").2),
          by simp [m00LoadStation, hf, hnm], by simp⟩
    | error e2 =>
        exact ⟨[([PathStep.field "free_bikes"], ValMsg.missingRequired)] ++ e2 ++
          ((intFieldOpt skvs "empty_slots").2 ++ m00ExtraErrors skvs ++
           (strFieldOpt skvs "id").2 ++ (floatFieldOpt skvs "latitude").2 ++
           (floatFieldOpt skvs "longitude").2 ++ (strFieldOpt skvs "timestamp").2),
          by simp [m00LoadStation, hf, hnm], by simp⟩

lemma m00LoadStations_elem_error (sts : List Json) (idx i : Nat) (s : Json)
    (hst : sts.get? i = some s) (es0 : Errors) (p : FieldPath) (m : ValMsg)
    (hse : m00LoadStation s = Except.error es0) (hmem : (p, m) ∈ es0) :
    ∃ es, m00LoadStations sts idx = Except.error es ∧
      (PathStep.index (idx + i) :: p, m) ∈ es := by
  induction sts generalizing idx i with
  | nil => simp at hst
  | cons hd tl ih =>
      cases i with
      | zero =>
          rw [List.get?_cons_zero] at hst
          injection hst with hst
          subst hst
          cases htl : m00LoadStations tl (idx + 1) with
          | ok vs =>
              refine ⟨prefErrors (PathStep.index idx) es0, ?_, ?_⟩
              · simp [m00LoadStations, hse, htl]
              · simpa [prefErrors] using
                  List.mem_map_of_mem (fun e => (PathStep.index idx :: e.1, e.2)) hmem
          | error ess =>
              refine ⟨prefErrors (PathStep.index idx) es0 ++ ess, ?_, ?_⟩
              · simp [m00LoadStations, hse, htl]
              · refine List.mem_append_left _ ?_
                simpa [prefErrors] using
                  List.mem_map_of_mem (fun e => (PathStep.index idx :: e.1, e.2)) hmem
      | succ i2 =>
          rw [List.get?_cons_succ] at hst
          obtain ⟨es, htl, hm⟩ := ih (idx + 1) i2 hst
          have harith : idx + 1 + i2 = idx + (i2 + 1) := by omega
          rw [harith] at hm
          cases hhd : m00LoadStation hd with
          | ok v => exact ⟨es, by simp [m00LoadStations, hhd, htl], hm⟩
          | error es1 =>
              exact ⟨prefErrors (PathStep.index idx) es1 ++ es,
                by simp [m00LoadStations, hhd, htl], List.mem_append_right _ hm⟩

/-- C1: for any input document in which some station object lacks the
`free_bikes` key or the `name` key, method00's mapping fails (a non-empty
marshmallow error set, so the program raises and no `Root` is produced) and
the collected errors name that exact field path, e.g.
`network.stations[0].name`. -/
theorem m00_missing_required_field_names_path
    (rkvs nkvs : List (String × Json)) (sts : List Json) (i : Nat)
    (skvs : List (String × Json)) (k : String)
    (hnet : jget rkvs "network" = some (Json.obj nkvs))
    (hsts : jget nkvs "stations" = some (Json.arr sts))
    (hst : sts.get? i = some (Json.obj skvs))
    (hk : k = "name" ∨ k = "free_bikes")
    (hmiss : jget skvs k = none) :
    ∃ es, m00LoadRoot (Json.obj rkvs) = Except.error es ∧
      ([PathStep.field "network", PathStep.field "stations", PathStep.index i,
        PathStep.field k], ValMsg.missingRequired) ∈ es ∧
      renderPath [PathStep.field "network", PathStep.field "stations",
        PathStep.index i, PathStep.field k] =
        "network.stations[" ++ toString i ++ "]." ++ k := by
  obtain ⟨es0, hse, hm0⟩ := m00LoadStation_missing skvs k hk hmiss
  obtain ⟨es1, hss, hm1⟩ :=
    m00LoadStations_elem_error sts 0 i (Json.obj skvs) hst es0 _ _ hse hm0
  rw [Nat.zero_add] at hm1
  have hnw : m00LoadNetwork (Json.obj nkvs) =
      Except.error (prefErrors (PathStep.field "stations") es1) := by
    simp [m00LoadNetwork, hsts, hss]
  refine ⟨prefErrors (PathStep.field "network")
      (prefErrors (PathStep.field "stations") es1), ?_, ?_, ?_⟩
  · simp [m00LoadRoot, hnet, hnw]
  · have hin : (PathStep.field "stations" :: PathStep.index i :: [PathStep.field k],
        ValMsg.missingRequired) ∈ prefErrors (PathStep.field "stations") es1 := by
      simpa [prefErrors] using
        List.mem_map_of_mem (fun e => (PathStep.field "stations" :: e.1, e.2)) hm1
    simpa [prefErrors] using
      List.mem_map_of_mem (fun e => (PathStep.field "network" :: e.1, e.2)) hin
  · simp [renderPath, PathStep.renderTail, String.join]
    simp only [← String.append_assoc]
    rw [show ("network" : String) ++ ".stations" ++ "[" = "network.stations[" from rfl]
    rw [String.append_assoc ("network.stations[" ++ toString i) "]" "."]
    rw [show ("]" : String) ++ "." = "]." from rfl]

/-- Witness for C1 at the spec's own example
`{"network":{"stations":[{"free_bikes":3}]}}`: the error set names
`network.stations[0].name`. -/
theorem m00_missing_required_field_witness :
    ∃ es, m00LoadRoot (Json.obj [("network", Json.obj [("stations",
        Json.arr [Json.obj [("free_bikes", Json.num 3)]])])]) =
        Except.error es ∧
      ([PathStep.field "network", PathStep.field "stations", PathStep.index 0,
        PathStep.field "name"], ValMsg.missingRequired) ∈ es ∧
      renderPath [PathStep.field "network", PathStep.field "stations",
        PathStep.index 0, PathStep.field "name"] =
        "network.stations[" ++ toString 0 ++ "]." ++ "name" :=
  m00_missing_required_field_names_path
    [("network", Json.obj [("stations",
        Json.arr [Json.obj [("free_bikes", Json.num 3)]])])]
    [("stations", Json.arr [Json.obj [("free_bikes", Json.num 3)]])]
    [Json.obj [("free_bikes", Json.num 3)]] 0
    [("free_bikes", Json.num 3)] "name"
    rfl rfl rfl (Or.inl rfl) rfl

/-! ### Well-formedness per spec §6 -/

def isStrJ : Json → Bool
  | Json.str _ => true
  | _ => false

def isNumJ : Json → Bool
  | Json.num _ => true
  | _ => false

/-- An optional key: absent, or present with the right kind. -/
def optTyped (o : Option Json) (p : Json → Bool) : Bool :=
  match o with
  | none => true
  | some v => p v

/-- A required key: present with the right kind. -/
def reqTyped (o : Option Json) (p : Json → Bool) : Bool :=
  match o with
  | none => false
  | some v => p v

def isExtraObj : Json → Bool
  | Json.obj kvs => optTyped (jget kvs "slots") isNumJ
  | _ => false

def isStrArr : Json → Bool
  | Json.arr xs => xs.all isStrJ
  | _ => false

/-- A station object matching §6's shape with its required fields (`name`,
`free_bikes`) present and every optional field, when present, of the
documented kind. -/
def wellFormedStation (j : Json) : Bool :=
  match j with
  | Json.obj kvs =>
      reqTyped (jget kvs "name") isStrJ &&
      reqTyped (jget kvs "free_bikes") isNumJ &&
      optTyped (jget kvs "empty_slots") isNumJ &&
      optTyped (jget kvs "extra") isExtraObj &&
      optTyped (jget kvs "id") isStrJ &&
      optTyped (jget kvs "latitude") isNumJ &&
      optTyped (jget kvs "longitude") isNumJ &&
      optTyped (jget kvs "timestamp") isStrJ
  | _ => false

def wellFormedLocation (j : Json) : Bool :=
  match j with
  | Json.obj kvs =>
      reqTyped (jget kvs "city") isStrJ &&
      reqTyped (jget kvs "country") isStrJ &&
      reqTyped (jget kvs "latitude") isStrJ &&
      reqTyped (jget kvs "longitude") isStrJ
  | _ => false

/-- A network object matching §6's shape, with the fields §3 marks required
(`location`, `stations`) present. -/
def wellFormedNetwork (j : Json) : Bool :=
  match j with
  | Json.obj kvs =>
      optTyped (jget kvs "company") isStrArr &&
      optTyped (jget kvs "href") isStrJ &&
      optTyped (jget kvs "id") isStrJ &&
      reqTyped (jget kvs "location") wellFormedLocation &&
      optTyped (jget kvs "name") isStrJ &&
      (match jget kvs "stations" with
       | some (Json.arr sts) => sts.all wellFormedStation
       | _ => false)
  | _ => false

/-- A document matching §6's shape with all required fields present. -/
def wellFormedRoot (j : Json) : Bool :=
  match j with
  | Json.obj kvs => reqTyped (jget kvs "network") wellFormedNetwork
  | _ => false

/-- The station record method00 produces for one well-formed station
object: its `name` and `free_bikes` values. -/
def m00View (j : Json) : M00.Station :=
  match j with
  | Json.obj kvs =>
      ⟨(match jget kvs "name" with
        | some (Json.str s) => s
        | _ => ""),
       (match jget kvs "free_bikes" with
        | some (Json.num n) => n
        | _ => 0)⟩
  | _ => ⟨"", 0⟩

lemma reqTyped_str (o : Option Json) (h : reqTyped o isStrJ = true) :
    ∃ s, o = some (Json.str s) := by
  cases o with
  | none => exact Bool.noConfusion h
  | some v =>
      cases v with
      | str s => exact ⟨s, rfl⟩
      | null => exact Bool.noConfusion h
      | jbool b => exact Bool.noConfusion h
      | num n => exact Bool.noConfusion h
      | arr xs => exact Bool.noConfusion h
      | obj kvs => exact Bool.noConfusion h

lemma reqTyped_num (o : Option Json) (h : reqTyped o isNumJ = true) :
    ∃ n, o = some (Json.num n) := by
  cases o with
  | none => exact Bool.noConfusion h
  | some v =>
      cases v with
      | num n => exact ⟨n, rfl⟩
      | null => exact Bool.noConfusion h
      | jbool b => exact Bool.noConfusion h
      | str s => exact Bool.noConfusion h
      | arr xs => exact Bool.noConfusion h
      | obj kvs => exact Bool.noConfusion h

lemma intFieldOpt_wf (kvs : List (String × Json)) (k : String)
    (h : optTyped (jget kvs k) isNumJ = true) : (intFieldOpt kvs k).2 = [] := by
  cases hg : jget kvs k with
  | none => simp [intFieldOpt, hg]
  | some v =>
      rw [hg] at h
      cases v with
      | num n => simp [intFieldOpt, hg, pyInt?]
      | null => exact Bool.noConfusion h
      | jbool b => exact Bool.noConfusion h
      | str s2 => exact Bool.noConfusion h
      | arr xs => exact Bool.noConfusion h
      | obj kvs2 => exact Bool.noConfusion h

lemma floatFieldOpt_wf (kvs : List (String × Json)) (k : String)
    (h : optTyped (jget kvs k) isNumJ = true) : (floatFieldOpt kvs k).2 = [] := by
  cases hg : jget kvs k with
  | none => simp [floatFieldOpt, hg]
  | some v =>
      rw [hg] at h
      cases v with
      | num n => simp [floatFieldOpt, hg, pyFloat?]
      | null => exact Bool.noConfusion h
      | jbool b => exact Bool.noConfusion h
      | str s2 => exact Bool.noConfusion h
      | arr xs => exact Bool.noConfusion h
      | obj kvs2 => exact Bool.noConfusion h

lemma strFieldOpt_wf (kvs : List (String × Json)) (k : String)
    (h : optTyped (jget kvs k) isStrJ = true) : (strFieldOpt kvs k).2 = [] := by
  cases hg : jget kvs k with
  | none => simp [strFieldOpt, hg]
  | some v =>
      rw [hg] at h
      cases v with
      | str s2 => simp [strFieldOpt, hg]
      | null => exact Bool.noConfusion h
      | jbool b => exact Bool.noConfusion h
      | num n => exact Bool.noConfusion h
      | arr xs => exact Bool.noConfusion h
      | obj kvs2 => exact Bool.noConfusion h

lemma m00ExtraErrors_wf (kvs : List (String × Json))
    (h : optTyped (jget kvs "extra") isExtraObj = true) :
    m00ExtraErrors kvs = [] := by
  cases hg : jget kvs "extra" with
  | none => simp [m00ExtraErrors, hg]
  | some v =>
      rw [hg] at h
      cases v with
      | obj ekvs =>
          have hs := intFieldOpt_wf ekvs "slots" h
          simp [m00ExtraErrors, hg, m00CheckExtra, hs, prefErrors]
      | null => exact Bool.noConfusion h
      | jbool b => exact Bool.noConfusion h
      | num n => exact Bool.noConfusion h
      | str s2 => exact Bool.noConfusion h
      | arr xs => exact Bool.noConfusion h

lemma m00LoadStation_wf (s : Json) (h : wellFormedStation s = true) :
    m00LoadStation s = Except.ok (m00View s) := by
  cases s with
  | obj kvs =>
      simp only [wellFormedStation, Bool.and_eq_true] at h
      obtain ⟨⟨⟨⟨⟨⟨⟨hn, hf⟩, hes⟩, hex⟩, hid⟩, hla⟩, hlo⟩, hts⟩ := h
      obtain ⟨nm, hnm⟩ := reqTyped_str _ hn
      obtain ⟨fb, hfb⟩ := reqTyped_num _ hf
      have h1 : intFieldReq kvs "free_bikes" = Except.ok fb := by
        simp [intFieldReq, hfb, pyInt?]
      have h2 : strFieldReq kvs "name" = Except.ok nm := by
        simp [strFieldReq, hnm]
      simp [m00LoadStation, h1, h2, intFieldOpt_wf _ _ hes,
        m00ExtraErrors_wf _ hex, strFieldOpt_wf _ _ hid,
        floatFieldOpt_wf _ _ hla, floatFieldOpt_wf _ _ hlo,
        strFieldOpt_wf _ _ hts, m00View, hnm, hfb]
  | null => exact Bool.noConfusion h
  | jbool b => exact Bool.noConfusion h
  | num n => exact Bool.noConfusion h
  | str s => exact Bool.noConfusion h
  | arr xs => exact Bool.noConfusion h

lemma m00LoadStations_wf (sts : List Json) (idx : Nat)
    (h : sts.all wellFormedStation = true) :
    m00LoadStations sts idx = Except.ok (sts.map m00View) := by
  induction sts generalizing idx with
  | nil => rfl
  | cons hd tl ih =>
      rw [List.all_cons, Bool.and_eq_true] at h
      obtain ⟨h1, h2⟩ := h
      simp [m00LoadStations, m00LoadStation_wf hd h1, ih (idx + 1) h2]

/-- C2: for every well-formed input document matching §6's shape with all
required fields present, method00's mapping succeeds and the resulting
stations sequence is exactly the element-wise image of the input `stations`
array — same length, same order. -/
theorem m00_wellformed_maps_all_stations
    (rkvs nkvs : List (String × Json)) (sts : List Json)
    (hnet : jget rkvs "network" = some (Json.obj nkvs))
    (hsts : jget nkvs "stations" = some (Json.arr sts))
    (hwf : wellFormedRoot (Json.obj rkvs) = true) :
    m00LoadRoot (Json.obj rkvs) = Except.ok ⟨⟨some (sts.map m00View)⟩⟩ ∧
    (sts.map m00View).length = sts.length := by
  have hnwf : wellFormedNetwork (Json.obj nkvs) = true := by
    simp only [wellFormedRoot] at hwf
    rw [hnet] at hwf
    exact hwf
  have hall : sts.all wellFormedStation = true := by
    simp only [wellFormedNetwork, Bool.and_eq_true] at hnwf
    obtain ⟨_, hstations⟩ := hnwf
    rw [hsts] at hstations
    simpa using hstations
  have hload := m00LoadStations_wf sts 0 hall
  refine ⟨?_, by simp⟩
  simp [m00LoadRoot, hnet, m00LoadNetwork, hsts, hload]

/-- A complete station object (all eight documented keys). -/
def fullStationDoc : Json :=
  Json.obj [("empty_slots", Json.num 1), ("extra", Json.obj [("slots", Json.num 2)]),
    ("free_bikes", Json.num 3), ("id", Json.str "st1"),
    ("latitude", Json.num 36), ("longitude", Json.num 28),
    ("name", Json.str "A"), ("timestamp", Json.str "t")]

/-- A complete location object per §6. -/
def locationDoc : Json :=
  Json.obj [("city", Json.str "Rhodes"), ("country", Json.str "GR"),
    ("latitude", Json.str "36.4"), ("longitude", Json.str "28.2")]

/-- A complete §6 document. -/
def wellFormedDocExample : Json :=
  Json.obj [("network", Json.obj [("company", Json.arr [Json.str "Cyclopolis Systems"]),
    ("href", Json.str "/v2/networks/cyclopolis-rhodes"),
    ("id", Json.str "cyclopolis-rhodes"), ("location", locationDoc),
    ("name", Json.str "Cyclopolis"),
    ("stations", Json.arr [fullStationDoc])])]

/-- Witness for C2 at a complete §6 document. -/
theorem m00_wellformed_witness :
    m00LoadRoot wellFormedDocExample =
      Except.ok ⟨⟨some ([fullStationDoc].map m00View)⟩⟩ ∧
    ([fullStationDoc].map m00View).length = [fullStationDoc].length :=
  m00_wellformed_maps_all_stations
    [("network", Json.obj [("company", Json.arr [Json.str "Cyclopolis Systems"]),
       ("href", Json.str "/v2/networks/cyclopolis-rhodes"),
       ("id", Json.str "cyclopolis-rhodes"), ("location", locationDoc),
       ("name", Json.str "Cyclopolis"),
       ("stations", Json.arr [fullStationDoc])])]
    [("company", Json.arr [Json.str "Cyclopolis Systems"]),
     ("href", Json.str "/v2/networks/cyclopolis-rhodes"),
     ("id", Json.str "cyclopolis-rhodes"), ("location", locationDoc),
     ("name", Json.str "Cyclopolis"),
     ("stations", Json.arr [fullStationDoc])]
    [fullStationDoc]
    rfl rfl (by decide)

/-! ### The spec's minimal fixture -/

/-- The spec §8 minimal fixture
`{"network":{"stations":[{"name":"Station A","free_bikes":3},{"name":"Station B","free_bikes":0}]}}`. -/
def minimalDocText : String :=
  "\x7b\"network\":\x7b\"stations\":[\x7b\"name\":\"Station A\",\"free_bikes\":3\x7d,\x7b\"name\":\"Station B\",\"free_bikes\":0\x7d]\x7d\x7d"

/-- C3 counterexample: on the minimal fixture the run does not succeed —
it terminates with an exception (method01's `Station(**data)` post_load
raises `TypeError`, the minimal stations lacking the six other constructor
arguments), so the claim "the run succeeds and the presentation output is
exactly the two lines" is false on this program. -/
theorem minimal_doc_run_does_not_succeed :
    (programRun minimalDocText).2 ≠ none := by decide

/-- C3 amended: on the minimal fixture, method00 succeeds and prints exactly
`Station A | Free Bikes: 3` and `Station B | Free Bikes: 0`, in that order;
those two lines are the whole output of the run, which then fails inside
method01 with a `TypeError` from the `Station` post_load constructor. -/
theorem minimal_doc_method00_lines_then_method01_type_error :
    programRun minimalDocText =
      (["Station A | Free Bikes: 3", "Station B | Free Bikes: 0"],
       some (PyErr.typeError "Station")) := by decide

/-! ### Unknown-field policy -/

lemma jget_stripObjKeys (f : String → Json → Json) (keys : List String)
    (kvs : List (String × Json)) (k : String) (hk : k ∈ keys) :
    jget (stripObjKeys f keys kvs) k = (jget kvs k).map (f k) := by
  induction kvs with
  | nil => simp [stripObjKeys, jget]
  | cons hd tl ih =>
      obtain ⟨k2, v⟩ := hd
      by_cases h2 : k2 ∈ keys
      · by_cases he : k2 = k
        · subst he
          simp [stripObjKeys, h2, jget]
        · simp [stripObjKeys, h2, jget, he, ih]
      · have hne : k2 ≠ k := fun he => h2 (he ▸ hk)
        simp [stripObjKeys, h2, jget, hne, ih]

lemma m00CheckExtra_strip (v : Json) :
    m00CheckExtra (stripExtra v) = m00CheckExtra v := by
  cases v with
  | obj ekvs =>
      have hs := jget_stripObjKeys (fun _ w => w) ["slots"] ekvs "slots"
        (by decide)
      cases hg : jget ekvs "slots" with
      | none =>
          rw [hg] at hs
          simp [stripExtra, m00CheckExtra, intFieldOpt, hs, hg]
      | some w =>
          rw [hg] at hs
          simp [stripExtra, m00CheckExtra, intFieldOpt, hs, hg]
  | null => rfl
  | jbool b => rfl
  | num n => rfl
  | str s => rfl
  | arr xs => rfl

lemma m00LoadStation_strip (s : Json) :
    m00LoadStation (stripStation s) = m00LoadStation s := by
  cases s with
  | obj kvs =>
      have hid : ∀ k, k ∈ stationKeys → k ≠ "extra" →
          jget (stripObjKeys stationFieldStrip stationKeys kvs) k =
            jget kvs k := by
        intro k hk hne
        rw [jget_stripObjKeys _ _ _ _ hk]
        cases jget kvs k <;> simp [stationFieldStrip, hne]
      have h1 := hid "empty_slots" (by decide) (by decide)
      have h3 := hid "free_bikes" (by decide) (by decide)
      have h4 := hid "id" (by decide) (by decide)
      have h5 := hid "latitude" (by decide) (by decide)
      have h6 := hid "longitude" (by decide) (by decide)
      have h7 := hid "name" (by decide) (by decide)
      have h8 := hid "timestamp" (by decide) (by decide)
      have h2 : m00ExtraErrors (stripObjKeys stationFieldStrip stationKeys kvs) =
          m00ExtraErrors kvs := by
        have hx := jget_stripObjKeys stationFieldStrip stationKeys kvs "extra"
          (by decide)
        cases hg : jget kvs "extra" with
        | none =>
            rw [hg] at hx
            simp [m00ExtraErrors, hx, hg]
        | some v =>
            rw [hg] at hx
            simp [m00ExtraErrors, hx, hg, stationFieldStrip, m00CheckExtra_strip]
      simp [stripStation, m00LoadStation, intFieldReq, strFieldReq, intFieldOpt,
        floatFieldOpt, strFieldOpt, h1, h2, h3, h4, h5, h6, h7, h8]
  | null => rfl
  | jbool b => rfl
  | num n => rfl
  | str s => rfl
  | arr xs => rfl

lemma m00LoadStations_strip (xs : List Json) (idx : Nat) :
    m00LoadStations (xs.map stripStation) idx = m00LoadStations xs idx := by
  induction xs generalizing idx with
  | nil => rfl
  | cons hd tl ih => simp [m00LoadStations, m00LoadStation_strip, ih]

lemma m00LoadNetwork_strip (v : Json) :
    m00LoadNetwork (stripNetwork v) = m00LoadNetwork v := by
  cases v with
  | obj kvs =>
      have hs : jget (stripObjKeys networkFieldStrip networkKeys kvs) "stations" =
          (jget kvs "stations").map (networkFieldStrip "stations") :=
        jget_stripObjKeys _ _ _ _ (by decide)
      cases hst : jget kvs "stations" with
      | none => simp [stripNetwork, m00LoadNetwork, hs, hst]
      | some w =>
          cases w with
          | arr xs =>
              simp [stripNetwork, m00LoadNetwork, hs, hst, networkFieldStrip,
                m00LoadStations_strip]
          | null => simp [stripNetwork, m00LoadNetwork, hs, hst, networkFieldStrip]
          | jbool b => simp [stripNetwork, m00LoadNetwork, hs, hst, networkFieldStrip]
          | num n => simp [stripNetwork, m00LoadNetwork, hs, hst, networkFieldStrip]
          | str s => simp [stripNetwork, m00LoadNetwork, hs, hst, networkFieldStrip]
          | obj kvs2 => simp [stripNetwork, m00LoadNetwork, hs, hst, networkFieldStrip]
  | null => rfl
  | jbool b => rfl
  | num n => rfl
  | str s => rfl
  | arr xs => rfl

/-- C4 amended: for any input document, method00's schema-based mapping is
field-wise identical on the document and on the document with every unknown
key removed — extra keys are silently ignored by the marshmallow mapping
(the claim fails as stated only for method02's namespace binding, which
attaches the extra keys to its records; see the counterexample). -/
theorem m00_ignores_unknown_keys (j : Json) :
    m00LoadRoot (stripRoot j) = m00LoadRoot j := by
  cases j with
  | obj kvs =>
      have hn : jget (stripObjKeys (fun _ v => stripNetwork v) ["network"] kvs)
          "network" = (jget kvs "network").map (fun v => stripNetwork v) :=
        jget_stripObjKeys _ _ _ _ (by decide)
      cases hnet : jget kvs "network" with
      | none => simp [stripRoot, m00LoadRoot, hn, hnet]
      | some v => simp [stripRoot, m00LoadRoot, hn, hnet, m00LoadNetwork_strip]
  | null => rfl
  | jbool b => rfl
  | num n => rfl
  | str s => rfl
  | arr xs => rfl

/-- A document with an unrecognized extra key at `network.extraField`. -/
def extraKeyDoc : Json :=
  Json.obj [("network", Json.obj [("extraField", Json.num 1),
    ("stations", Json.arr [])])]

/-- Does the method02 record tree carry a `network.extraField` attribute? -/
def nsHasNetworkExtraField (v : NsVal) : Bool :=
  match nsAttr v "network" with
  | Except.ok nw =>
      match nsAttr nw "extraField" with
      | Except.ok _ => true
      | Except.error _ => false
  | Except.error _ => false

/-- C4 counterexample: the claim is false for method02's mapping
(lines 293-298): mapping `{"network":{"extraField":1,"stations":[]}}` with
the `SimpleNamespace` object hook produces a record tree that is not
field-wise equal to mapping the same document with the extra key removed —
the former carries the `network.extraField` attribute. -/
theorem m02_namespace_keeps_extra_key :
    nsOfJson extraKeyDoc ≠ nsOfJson (stripRoot extraKeyDoc) := by
  intro h
  have h2 := congrArg nsHasNetworkExtraField h
  rw [show nsHasNetworkExtraField (nsOfJson extraKeyDoc) = true from rfl] at h2
  rw [show nsHasNetworkExtraField (nsOfJson (stripRoot extraKeyDoc)) = false
    from rfl] at h2
  exact Bool.noConfusion h2

/-- C5: if the document text is not well-formed JSON, the pipeline aborts
with the JSON decode failure (the spec's `SyntaxError` error kind) before
any `ValidationError` could occur: the run's outcome is the same for every
conceivable mapping stage, so no mapping or field validation takes place on
text that is not well-formed JSON. -/
theorem parse_failure_aborts_before_mapping (s : String) (e : String)
    (hp : jsonParse s = Except.error e)
    (mapper : Json → List String × Option PyErr) :
    pipelineWith mapper s = ([], some (PyErr.decodeError e)) := by
  unfold pipelineWith
  rw [hp]

/-- Witness for C5 at the spec's example text `"{network:"`. -/
theorem parse_failure_witness :
    jsonParse "\x7bnetwork:" = Except.error "expected property name" ∧
    programRun "\x7bnetwork:" =
      ([], some (PyErr.decodeError "expected property name")) :=
  ⟨rfl, parse_failure_aborts_before_mapping "\x7bnetwork:"
    "expected property name" rfl (runMethods m03Run toplevelCalls)⟩

/-- A document whose single station carries all eight keys but whose
network lacks the `location` object. -/
def noLocationDoc : Json :=
  Json.obj [("network", Json.obj [("stations", Json.arr [fullStationDoc])])]

/-- C6 counterexample: a run in which validation fails and station output
was nevertheless printed. method00's `only`-restricted schemas do not
require `location`, so method00 prints its station line; method01 then
fails validation on the missing required `network.location`, and the run
terminates with that validation exception — after a presentation line
already reached standard output. -/
theorem validation_failure_after_station_output :
    (programMethods noLocationDoc).1 = ["A | Free Bikes: 3"] ∧
    (programMethods noLocationDoc).2 =
      some (PyErr.exception [([PathStep.field "network",
        PathStep.field "location"], ValMsg.missingRequired)]) := by decide

/-- C6 amended: for any input document in which some station object lacks
the `name` or `free_bikes` key — a required-field validation failure, which
no field coercion can mask — method00's mapping fails and the run
terminates with the raised exception having printed nothing: no station
line reaches standard output for such a run. (Validation can instead fail
only in method01, after method00 already printed its lines; see the
counterexample.) -/
theorem m00_validation_failure_prints_nothing
    (rkvs nkvs : List (String × Json)) (sts : List Json) (i : Nat)
    (skvs : List (String × Json)) (k : String)
    (hnet : jget rkvs "network" = some (Json.obj nkvs))
    (hsts : jget nkvs "stations" = some (Json.arr sts))
    (hst : sts.get? i = some (Json.obj skvs))
    (hk : k = "name" ∨ k = "free_bikes")
    (hmiss : jget skvs k = none) :
    ∃ es, m00LoadRoot (Json.obj rkvs) = Except.error es ∧
      programMethods (Json.obj rkvs) = ([], some (PyErr.exception es)) := by
  obtain ⟨es0, hse, hm0⟩ := m00LoadStation_missing skvs k hk hmiss
  obtain ⟨es1, hss, _⟩ :=
    m00LoadStations_elem_error sts 0 i (Json.obj skvs) hst es0 _ _ hse hm0
  have hnw : m00LoadNetwork (Json.obj nkvs) =
      Except.error (prefErrors (PathStep.field "stations") es1) := by
    simp [m00LoadNetwork, hsts, hss]
  have hroot : m00LoadRoot (Json.obj rkvs) =
      Except.error (prefErrors (PathStep.field "network")
        (prefErrors (PathStep.field "stations") es1)) := by
    simp [m00LoadRoot, hnet, hnw]
  exact ⟨_, hroot, by
    simp [programMethods, runMethods, toplevelCalls, runMethod, m00Run, hroot]⟩

/-- Witness for the amended C6 at `{"network":{"stations":[{"free_bikes":3}]}}`. -/
theorem m00_validation_failure_witness :
    ∃ es, m00LoadRoot (Json.obj [("network", Json.obj [("stations",
        Json.arr [Json.obj [("free_bikes", Json.num 3)]])])]) =
        Except.error es ∧
      programMethods (Json.obj [("network", Json.obj [("stations",
        Json.arr [Json.obj [("free_bikes", Json.num 3)]])])]) =
        ([], some (PyErr.exception es)) :=
  m00_validation_failure_prints_nothing
    [("network", Json.obj [("stations",
        Json.arr [Json.obj [("free_bikes", Json.num 3)]])])]
    [("stations", Json.arr [Json.obj [("free_bikes", Json.num 3)]])]
    [Json.obj [("free_bikes", Json.num 3)]] 0
    [("free_bikes", Json.num 3)] "name"
    rfl rfl rfl (Or.inl rfl) rfl

/-- C7: mapping the same document text twice is deterministic: the record
tree of method01's first `schema.loads(responsestr)` (line 230) is
field-wise equal to that of its second `schema.loads(responsestr)`
(line 246) — the mapping is a pure function of the document text, with no
hidden state. -/
theorem m01_mapping_deterministic (s : String) :
    m01FirstLoad s = m01SecondLoad s := rfl

/-- C9: the module toplevel executes method00, method01 and method02, in
that order, and never invokes method03; consequently the program's output
is identical under any two interpretations of method03 — the hand-rolled
recursive object-hook variant contributes nothing to the observable output
on any input. -/
theorem toplevel_runs_three_methods_not_method03 :
    toplevelCalls =
      [MethodName.method00, MethodName.method01, MethodName.method02] ∧
    MethodName.method03 ∉ toplevelCalls ∧
    (∀ s, programRun s = pipelineWith (runMethods m03Run toplevelCalls) s) ∧
    ∀ (m3 m3' : Json → List String × Option PyErr) (s : String),
      pipelineWith (runMethods m3 toplevelCalls) s =
        pipelineWith (runMethods m3' toplevelCalls) s := by
  refine ⟨rfl, by decide, fun s => rfl, ?_⟩
  intro m3 m3' s
  unfold pipelineWith
  cases jsonParse s with
  | error e => rfl
  | ok j => simp [toplevelCalls, runMethods, runMethod]

/-- Same as `locationDoc` with a different `latitude` value. -/
def locationDocB : Json :=
  Json.obj [("city", Json.str "Rhodes"), ("country", Json.str "GR"),
    ("latitude", Json.str "99.9"), ("longitude", Json.str "28.2")]

/-- C8 counterexample: the Location records the mapping produces do not
carry latitude or longitude: two `network.location` objects that differ in
their `latitude` key map to the very same Location record (method01's
`Location.__init__` takes only `city` and `country`; method00's four-field
`LocationSchema` is excluded by `only` and produces no record at all), so a
Location record is not populated from the document's `latitude` key. -/
theorem m01_location_drops_latitude :
    m01LoadLocation locationDoc = m01LoadLocation locationDocB ∧
    jget [("city", Json.str "Rhodes"), ("country", Json.str "GR"),
      ("latitude", Json.str "36.4"), ("longitude", Json.str "28.2")]
      "latitude" ≠
    jget [("city", Json.str "Rhodes"), ("country", Json.str "GR"),
      ("latitude", Json.str "99.9"), ("longitude", Json.str "28.2")]
      "latitude" := by
  refine ⟨rfl, ?_⟩
  intro h
  simp [jget] at h

/-- C8 amended: every Location record produced by the mapping (method01's
post_load `Location(**data)`) carries exactly two string fields — `city`
and `country` — populated from the corresponding keys of the document's
`network.location` object; `latitude` and `longitude` are not fields of the
record. -/
theorem m01_location_carries_city_country (kvs : List (String × Json))
    (c k : String)
    (hc : jget kvs "city" = some (Json.str c))
    (hk : jget kvs "country" = some (Json.str k)) :
    m01LoadLocation (Json.obj kvs) = Except.ok (Except.ok ⟨c, k⟩) := by
  simp [m01LoadLocation, strFieldOpt, hc, hk]

/-- Witness for the amended C8 at a complete location object. -/
theorem m01_location_witness :
    m01LoadLocation locationDoc = Except.ok (Except.ok ⟨"Rhodes", "GR"⟩) :=
  m01_location_carries_city_country
    [("city", Json.str "Rhodes"), ("country", Json.str "GR"),
     ("latitude", Json.str "36.4"), ("longitude", Json.str "28.2")]
    "Rhodes" "GR" rfl rfl

/-! ### method02 validation-free behavior -/

lemma nsOfJsonList_eq_map (xs : List Json) :
    nsOfJsonList xs = xs.map nsOfJson := by
  induction xs with
  | nil => rfl
  | cons hd tl ih => simp [nsOfJsonList, ih]

lemma nsGet_nsOfJsonObj (kvs : List (String × Json)) (k : String) :
    nsGet (nsOfJsonObj kvs) k = (jget kvs k).map nsOfJson := by
  induction kvs with
  | nil => rfl
  | cons hd tl ih =>
      obtain ⟨k2, v⟩ := hd
      by_cases he : k2 = k
      · subst he
        simp [nsOfJsonObj, nsGet, jget]
      · simp [nsOfJsonObj, nsGet, jget, he, ih]

/-- A station namespace that method02's loop prints a line for: its `name`
attribute is a string and its `free_bikes` attribute exists. -/
def m02GoodStation (v : NsVal) : Bool :=
  match v with
  | NsVal.ns attrs =>
      (match nsGet attrs "name" with
       | some (NsVal.str _) => true
       | _ => false) &&
      (nsGet attrs "free_bikes").isSome
  | _ => false

/-- The line method02 prints for a good station namespace. -/
def m02StationLine (v : NsVal) : String :=
  match v with
  | NsVal.ns attrs =>
      (match nsGet attrs "name" with
       | some (NsVal.str s) => s
       | _ => "") ++ " | Free Bikes: " ++
      (match nsGet attrs "free_bikes" with
       | some fb => pyStrNs fb
       | none => "")
  | _ => ""

lemma m02StationsIter_good (vs rest : List NsVal) (acc : List String)
    (hvs : ∀ v ∈ vs, m02GoodStation v = true) :
    m02StationsIter (vs ++ rest) acc =
      m02StationsIter rest (acc ++ vs.map m02StationLine) := by
  induction vs generalizing acc with
  | nil => simp
  | cons hd tl ih =>
      have hh := hvs hd (List.mem_cons_self _ _)
      cases hd with
      | ns attrs =>
          simp only [m02GoodStation, Bool.and_eq_true] at hh
          obtain ⟨hn, hf⟩ := hh
          cases hgn : nsGet attrs "name" with
          | none => rw [hgn] at hn; exact Bool.noConfusion hn
          | some nv =>
              cases nv with
              | str s =>
                  cases hgf : nsGet attrs "free_bikes" with
                  | none =>
                      rw [hgf] at hf
                      exact Bool.noConfusion hf
                  | some fb =>
                      have hstep : m02StationsIter
                          (NsVal.ns attrs :: (tl ++ rest)) acc =
                          m02StationsIter (tl ++ rest)
                            (acc ++ [s ++ " | Free Bikes: " ++ pyStrNs fb]) := by
                        simp [m02StationsIter, nsAttr, hgn, hgf]
                      rw [List.cons_append, hstep,
                        ih _ (fun v hv => hvs v (List.mem_cons_of_mem _ hv))]
                      congr 1
                      simp [m02StationLine, hgn, hgf]
              | null => rw [hgn] at hn; exact Bool.noConfusion hn
              | nbool b => rw [hgn] at hn; exact Bool.noConfusion hn
              | num n => rw [hgn] at hn; exact Bool.noConfusion hn
              | list xs => rw [hgn] at hn; exact Bool.noConfusion hn
              | ns attrs2 => rw [hgn] at hn; exact Bool.noConfusion hn
      | null => exact Bool.noConfusion hh
      | nbool b => exact Bool.noConfusion hh
      | num n => exact Bool.noConfusion hh
      | str s => exact Bool.noConfusion hh
      | list xs => exact Bool.noConfusion hh

lemma m02StationsIter_bad (bkvs : List (String × NsVal)) (rest : List NsVal)
    (acc : List String)
    (hmiss : nsGet bkvs "name" = none ∨
      ((∃ s, nsGet bkvs "name" = some (NsVal.str s)) ∧
        nsGet bkvs "free_bikes" = none)) :
    ∃ a, m02StationsIter (NsVal.ns bkvs :: rest) acc =
      (acc, some (PyErr.attributeError a)) := by
  rcases hmiss with hn | ⟨⟨s, hn⟩, hf⟩
  · exact ⟨"name", by simp [m02StationsIter, nsAttr, hn]⟩
  · exact ⟨"free_bikes", by simp [m02StationsIter, nsAttr, hn, hf]⟩

lemma nsAttr_error_shape (v : NsVal) (k : String) (pe : PyErr)
    (h : nsAttr v k = Except.error pe) : pe = PyErr.attributeError k := by
  cases v with
  | ns attrs =>
      cases hg : nsGet attrs k with
      | none =>
          simp [nsAttr, hg] at h
          exact h.symm
      | some w => simp [nsAttr, hg] at h
  | null =>
      simp [nsAttr] at h
      exact h.symm
  | nbool b =>
      simp [nsAttr] at h
      exact h.symm
  | num n =>
      simp [nsAttr] at h
      exact h.symm
  | str s =>
      simp [nsAttr] at h
      exact h.symm
  | list xs =>
      simp [nsAttr] at h
      exact h.symm

lemma m02StationsIter_no_exception (vs : List NsVal) (acc : List String)
    (es : Errors) :
    (m02StationsIter vs acc).2 ≠ some (PyErr.exception es) := by
  induction vs generalizing acc with
  | nil => simp [m02StationsIter]
  | cons hd tl ih =>
      cases hd with
      | ns attrs =>
          cases hgn : nsGet attrs "name" with
          | none => simp [m02StationsIter, nsAttr, hgn]
          | some nv =>
              cases nv with
              | str s =>
                  cases hgf : nsGet attrs "free_bikes" with
                  | none => simp [m02StationsIter, nsAttr, hgn, hgf]
                  | some fb =>
                      simpa [m02StationsIter, nsAttr, hgn, hgf] using ih _
              | null => simp [m02StationsIter, nsAttr, hgn]
              | nbool b => simp [m02StationsIter, nsAttr, hgn]
              | num n => simp [m02StationsIter, nsAttr, hgn]
              | list xs => simp [m02StationsIter, nsAttr, hgn]
              | ns a2 => simp [m02StationsIter, nsAttr, hgn]
      | null => simp [m02StationsIter, nsAttr]
      | nbool b => simp [m02StationsIter, nsAttr]
      | num n => simp [m02StationsIter, nsAttr]
      | str s => simp [m02StationsIter, nsAttr]
      | list xs => simp [m02StationsIter, nsAttr]

lemma m02Run_no_exception (j : Json) (es : Errors) :
    (m02Run j).2 ≠ some (PyErr.exception es) := by
  unfold m02Run
  cases h1 : nsAttr (nsOfJson j) "network" with
  | error pe =>
      have hpe := nsAttr_error_shape _ _ _ h1
      subst hpe
      simp
  | ok nw =>
      dsimp only
      cases h2 : nsAttr nw "stations" with
      | error pe =>
          have hpe := nsAttr_error_shape _ _ _ h2
          subst hpe
          simp
      | ok sts =>
          dsimp only
          cases sts with
          | list xs =>
              dsimp only
              have hne := m02StationsIter_no_exception xs [] es
              rcases hit : m02StationsIter xs [] with ⟨ls, oe⟩
              rw [hit] at hne
              cases oe with
              | none => simp
              | some pe => simpa using hne
          | str s =>
              dsimp only
              have hne := m02StationsIter_no_exception
                (s.data.map (fun c => NsVal.str (String.singleton c))) [] es
              rcases hit : m02StationsIter
                  (s.data.map (fun c => NsVal.str (String.singleton c))) [] with ⟨ls, oe⟩
              rw [hit] at hne
              cases oe with
              | none => simp
              | some pe => simpa using hne
          | null => simp
          | nbool b => simp
          | num n => simp
          | ns attrs => simp

/-- C10: the SimpleNamespace variant (method02) performs no required-field
validation: on a document whose station objects lack `name` or
`free_bikes` it never produces a marshmallow validation error (no run of
method02 can, on any input); the failure surfaces as an `AttributeError`
during presentation, after the lines for every earlier well-formed station
have already been printed — partial output is produced. -/
theorem m02_no_validation_error_partial_output
    (rkvs nkvs : List (String × Json)) (sts pre : List Json) (bad : Json)
    (rest : List Json) (bkvs : List (String × Json))
    (hnet : jget rkvs "network" = some (Json.obj nkvs))
    (hsts : jget nkvs "stations" = some (Json.arr sts))
    (hsplit : sts = pre ++ bad :: rest)
    (hpre : ∀ s ∈ pre, m02GoodStation (nsOfJson s) = true)
    (hbad : bad = Json.obj bkvs)
    (hmiss : jget bkvs "name" = none ∨
      ((∃ s, jget bkvs "name" = some (Json.str s)) ∧
        jget bkvs "free_bikes" = none)) :
    (∃ a, m02Run (Json.obj rkvs) =
      ((pre.map nsOfJson).map m02StationLine,
       some (PyErr.attributeError a))) ∧
    ∀ (j : Json) (es : Errors), (m02Run j).2 ≠ some (PyErr.exception es) := by
  refine ⟨?_, fun j es => m02Run_no_exception j es⟩
  have h1 : nsAttr (nsOfJson (Json.obj rkvs)) "network" =
      Except.ok (nsOfJson (Json.obj nkvs)) := by
    simp [nsOfJson, nsAttr, nsGet_nsOfJsonObj, hnet]
  have h2 : nsAttr (nsOfJson (Json.obj nkvs)) "stations" =
      Except.ok (nsOfJson (Json.arr sts)) := by
    simp [nsOfJson, nsAttr, nsGet_nsOfJsonObj, hsts]
  have hmiss2 : nsGet (nsOfJsonObj bkvs) "name" = none ∨
      ((∃ s, nsGet (nsOfJsonObj bkvs) "name" = some (NsVal.str s)) ∧
        nsGet (nsOfJsonObj bkvs) "free_bikes" = none) := by
    rcases hmiss with hn | ⟨⟨s, hn⟩, hf⟩
    · left
      rw [nsGet_nsOfJsonObj, hn]
      rfl
    · right
      refine ⟨⟨s, ?_⟩, ?_⟩
      · rw [nsGet_nsOfJsonObj, hn]
        rfl
      · rw [nsGet_nsOfJsonObj, hf]
        rfl
  obtain ⟨a, hbadrun⟩ := m02StationsIter_bad (nsOfJsonObj bkvs)
    (rest.map nsOfJson) ([] ++ (pre.map nsOfJson).map m02StationLine) hmiss2
  have hgood := m02StationsIter_good (pre.map nsOfJson)
    (NsVal.ns (nsOfJsonObj bkvs) :: rest.map nsOfJson) []
    (fun v hv => by
      obtain ⟨s0, hs0, rfl⟩ := List.mem_map.mp hv
      exact hpre s0 hs0)
  have hlist : nsOfJson (Json.arr sts) = NsVal.list
      (pre.map nsOfJson ++ NsVal.ns (nsOfJsonObj bkvs) :: rest.map nsOfJson) := by
    simp [nsOfJson, nsOfJsonList_eq_map, hsplit, hbad, List.map_append]
  refine ⟨a, ?_⟩
  unfold m02Run
  rw [h1]
  dsimp only
  rw [h2]
  dsimp only
  rw [hlist]
  dsimp only
  rw [hgood, hbadrun]
  simp

/-- A document whose second station lacks `name` (first and third are
well-formed). -/
def m02PartialDoc : Json :=
  Json.obj [("network", Json.obj [("stations", Json.arr
    [Json.obj [("name", Json.str "A"), ("free_bikes", Json.num 3)],
     Json.obj [("free_bikes", Json.num 9)],
     Json.obj [("name", Json.str "C"), ("free_bikes", Json.num 1)]])])]

/-- Witness for C10: on `m02PartialDoc`, method02 prints the first
station's line, then dies with an `AttributeError`. -/
theorem m02_no_validation_witness :
    (∃ a, m02Run m02PartialDoc =
      (([Json.obj [("name", Json.str "A"), ("free_bikes", Json.num 3)]].map
          nsOfJson).map m02StationLine,
       some (PyErr.attributeError a))) ∧
    ∀ (j : Json) (es : Errors), (m02Run j).2 ≠ some (PyErr.exception es) :=
  m02_no_validation_error_partial_output
    [("network", Json.obj [("stations", Json.arr
      [Json.obj [("name", Json.str "A"), ("free_bikes", Json.num 3)],
       Json.obj [("free_bikes", Json.num 9)],
       Json.obj [("name", Json.str "C"), ("free_bikes", Json.num 1)]])])]
    [("stations", Json.arr
      [Json.obj [("name", Json.str "A"), ("free_bikes", Json.num 3)],
       Json.obj [("free_bikes", Json.num 9)],
       Json.obj [("name", Json.str "C"), ("free_bikes", Json.num 1)]])]
    [Json.obj [("name", Json.str "A"), ("free_bikes", Json.num 3)],
     Json.obj [("free_bikes", Json.num 9)],
     Json.obj [("name", Json.str "C"), ("free_bikes", Json.num 1)]]
    [Json.obj [("name", Json.str "A"), ("free_bikes", Json.num 3)]]
    (Json.obj [("free_bikes", Json.num 9)])
    [Json.obj [("name", Json.str "C"), ("free_bikes", Json.num 1)]]
    [("free_bikes", Json.num 9)]
    rfl rfl rfl
    (by
      intro s hs
      rw [List.mem_singleton] at hs
      subst hs
      rfl)
    rfl (Or.inl rfl)

/-- Instantiation of the amended C4 at a concrete document carrying a
`network.extraField` key. -/
theorem m00_ignores_unknown_keys_witness :
    m00LoadRoot (stripRoot extraKeyDoc) = m00LoadRoot extraKeyDoc :=
  m00_ignores_unknown_keys extraKeyDoc

/-- Instantiation of C7 at the minimal fixture text. -/
theorem m01_mapping_deterministic_witness :
    m01FirstLoad minimalDocText = m01SecondLoad minimalDocText :=
  m01_mapping_deterministic minimalDocText
